import Mathlib

/-!
Verification of the pycbsdk wire codec, packet factory, handler pipeline and
configuration mirror.

The Python source stores packets as dense little-endian ctypes structures.
We embed a packet as a header record plus a list of fixed-field values plus a
trailing variable-length array; every field value is the little-endian natural
number read from the field's bytes (signed integers, floats and char arrays
are represented by their bit patterns, which is exact for byte-level
round-trip statements).
-/

set_option autoImplicit false
set_option maxRecDepth 8000

namespace Pycbsdk


/-- Little-endian serialization of a value into `w` bytes
(the byte order used by all `_pack_ = 1` ctypes structures in the source). -/
def toLEBytes : Nat → Nat → List Nat
  | 0, _ => []
  | w + 1, v => (v % 256) :: toLEBytes w (v / 256)

/-- Read a little-endian natural number back from a byte list. -/
def fromLEBytes : List Nat → Nat
  | [] => 0
  | b :: bs => b + 256 * fromLEBytes bs

/-- Serialize a list of field values with the given byte widths
(a ctypes structure body is the concatenation of its packed fields). -/
def encodeFields : List Nat → List Nat → List Nat
  | w :: ws, v :: vs => toLEBytes w v ++ encodeFields ws vs
  | _, _ => []

/-- Read a list of field values with the given byte widths from the front of a
buffer, returning the values and the remaining bytes.  Returns `none` when the
buffer is too short (ctypes `from_buffer_copy` raises `ValueError`). -/
def parseFields : List Nat → List Nat → Option (List Nat × List Nat)
  | [], bs => some ([], bs)
  | w :: ws, bs =>
    if w ≤ bs.length then
      match parseFields ws (bs.drop w) with
      | some (vs, rest) => some (fromLEBytes (bs.take w) :: vs, rest)
      | none => none
    else
      none

/-- Bounds check used as well-formedness: one value per width, each value
fitting in its field. -/
def fieldsOK : List Nat → List Nat → Bool
  | [], [] => true
  | w :: ws, v :: vs => decide (v < 256 ^ w) && fieldsOK ws vs
  | _, _ => false

/-- Serialize the trailing variable-length array (`bytes(self._array)` in
`CBPacketVarLen.__bytes__`): the concatenation of the elements' bytes. -/
def encodeArray (esz : Nat) : List Nat → List Nat
  | [] => []
  | a :: rest => toLEBytes esz a ++ encodeArray esz rest

/-- Read `n` consecutive elements of `esz` bytes each from the buffer. -/
def readElems (esz : Nat) : Nat → List Nat → List Nat
  | 0, _ => []
  | n + 1, bs => fromLEBytes (bs.take esz) :: readElems esz n (bs.drop esz)

/-- `CBPacketVarLen.__init__` reads the bytes past the fixed struct into the
trailing array: `n_items = n_bytes // sizeof(elem)`, then a `memmove`. -/
def parseArray (esz : Nat) (bs : List Nat) : List Nat :=
  if esz = 0 then [] else readElems esz (bs.length / esz) bs

/-! ## Packet headers (`cbhw/packet/header/{v311,v40}.py`, `src/.../header/v41.py`)

Three wire versions.  All little-endian and `_pack_ = 1`:
* 3.11 : time u32, chid u16, type u8,  dlen u8                        (8 bytes)
* 4.0  : time u64, chid u16, type u8,  dlen u16, instrument u8, reserved u8×2 (16 bytes)
* 4.1+ : time u64, chid u16, type u16, dlen u16, instrument u8, reserved u8  (16 bytes)
-/

inductive ProtocolVersion
  | v311
  | v40
  | v41
  deriving DecidableEq, Repr

structure CBPacketHeader where
  time : Nat
  chid : Nat
  type : Nat
  dlen : Nat
  instrument : Nat
  reserved : Nat
  deriving DecidableEq, Repr

/-- Byte widths of the header fields, per wire version. -/
def headerWidths : ProtocolVersion → List Nat
  | .v311 => [4, 2, 1, 1]
  | .v40 => [8, 2, 1, 2, 1, 2]
  | .v41 => [8, 2, 2, 2, 1, 1]

/-- Header field values in declaration order (the 3.11 header has no
`instrument` / `reserved` fields). -/
def headerVals : ProtocolVersion → CBPacketHeader → List Nat
  | .v311, h => [h.time, h.chid, h.type, h.dlen]
  | .v40, h => [h.time, h.chid, h.type, h.dlen, h.instrument, h.reserved]
  | .v41, h => [h.time, h.chid, h.type, h.dlen, h.instrument, h.reserved]

def headerSize (ver : ProtocolVersion) : Nat := (headerWidths ver).sum

def encodeHeader (ver : ProtocolVersion) (h : CBPacketHeader) : List Nat :=
  encodeFields (headerWidths ver) (headerVals ver h)

/-- Parse a header from the front of a buffer; remaining bytes are returned.
Fields absent from the 3.11 header read back as 0. -/
def decodeHeader (ver : ProtocolVersion) (bs : List Nat) :
    Option (CBPacketHeader × List Nat) :=
  match parseFields (headerWidths ver) bs with
  | none => none
  | some (vs, rest) =>
    some (⟨vs.getD 0 0, vs.getD 1 0, vs.getD 2 0, vs.getD 3 0,
      (match ver with | .v311 => 0 | _ => vs.getD 4 0),
      (match ver with | .v311 => 0 | _ => vs.getD 5 0)⟩, rest)

/-- Header well-formedness: each field value fits its width; fields the 3.11
header does not carry must be 0 there. -/
def headerOK (ver : ProtocolVersion) (h : CBPacketHeader) : Bool :=
  fieldsOK (headerWidths ver) (headerVals ver h) &&
    (match ver with
     | .v311 => decide (h.instrument = 0) && decide (h.reserved = 0)
     | _ => true)

/-! ## Packet bodies

A concrete packet class is a header followed by a packed fixed struct and,
for `CBPacketVarLen` subclasses, a trailing variable-length array.  We record
each class by the byte widths of its fixed body fields (nested structs are
flattened), whether it is variable-length, the element byte size of the
trailing array and the class's `max_elements` (when the class defines it;
`CBPacketDIn` in v311 leaves it abstract). -/

structure PktLayout where
  ver : ProtocolVersion
  bodyW : List Nat
  varlen : Bool
  elemSize : Nat
  maxElements : Option Nat
  deriving DecidableEq, Repr

structure CBPacket where
  header : CBPacketHeader
  fields : List Nat
  arr : List Nat
  deriving DecidableEq, Repr

/-- Size of the class's fixed ctypes struct (`sizeof(cls)`). -/
def fixedSize (L : PktLayout) : Nat := headerSize L.ver + L.bodyW.sum

/-- `__bytes__`: header bytes, then packed fixed fields, then the trailing
array's bytes (empty for fixed-size classes). -/
def encodePacket (L : PktLayout) (p : CBPacket) : List Nat :=
  encodeHeader L.ver p.header ++ encodeFields L.bodyW p.fields ++
    encodeArray L.elemSize p.arr

/-- Constructing a packet of a given class from a buffer
(`cls(buffer)`, i.e. `from_buffer_copy` plus, for `CBPacketVarLen`, the
trailing-array read of bytes past `sizeof(cls)`).  `none` models the
`ValueError` raised when the buffer is shorter than the fixed struct. -/
def decodePacket (L : PktLayout) (bs : List Nat) : Option CBPacket :=
  match decodeHeader L.ver bs with
  | none => none
  | some (hdr, r1) =>
    match parseFields L.bodyW r1 with
    | none => none
    | some (vals, r2) =>
      some ⟨hdr, vals, if L.varlen then parseArray L.elemSize r2 else []⟩

/-- Well-formed instance of a class: header and fixed fields fit their
widths, trailing array elements fit the element size, fixed-size classes
have no trailing array, and the array length is within `max_elements`. -/
def packetOK (L : PktLayout) (p : CBPacket) : Bool :=
  headerOK L.ver p.header && fieldsOK L.bodyW p.fields &&
    p.arr.all (fun a => decide (a < 256 ^ L.elemSize)) &&
    (L.varlen || decide (p.arr = [])) &&
    (match L.maxElements with
     | some m => decide (p.arr.length ≤ m)
     | none => true)

/-! ## Concrete packet classes (`cbhw/packet/{common,packets,v311,v40,v41,v42}.py`)

Byte widths of each class's fixed body, in field order.  Nested structs are
flattened; fixed-size char/int arrays are kept as single byte fields (their
values are the little-endian reading of the raw bytes, which is faithful for
byte-level encode/decode statements). -/

/-- `CBScaling`: digmin i16, digmax i16, anamin i32, anamax i32, anagain i32,
anaunit char×8. -/
def cbScalingW : List Nat := [2, 2, 4, 4, 4, 8]

/-- `CBFiltDesc`: label char×16, hpfreq, hporder, hptype, lpfreq, lporder,
lptype (all u32). -/
def cbFiltDescW : List Nat := [16, 4, 4, 4, 4, 4, 4]

/-- `CBManualUnitMapping`: nOverride i16, afOrigin i16×3, afShape i16×3×3,
aPhi i16, bValid u32. -/
def cbManualUnitMappingW : List Nat := [2, 6, 18, 2, 4]

/-- `CBHoop`: valid u16, time i16, min i16, max i16. -/
def cbHoopW : List Nat := [2, 2, 2, 2]

/-- `CBPacketSpike`: fPattern f32×3, nPeak i16, nValley i16; trailing i16
waveform, `max_elements = 128`. -/
def spikeLayout (ver : ProtocolVersion) : PktLayout :=
  ⟨ver, [4, 4, 4, 2, 2], true, 2, some 128⟩

/-- `CBPacketGroup`: header only; trailing i16 samples, `max_elements = 272`. -/
def groupLayout (ver : ProtocolVersion) : PktLayout :=
  ⟨ver, [], true, 2, some 272⟩

/-- `CBPacketGeneric`: header only; trailing u32 words,
`max_elements = (1024 - sizeof(header)) // 4`. -/
def genericLayout (ver : ProtocolVersion) : PktLayout :=
  ⟨ver, [], true, 4, some ((1024 - headerSize ver) / 4)⟩

/-- `CBPacketHeartBeat`: a `CBPacketGeneric` with `max_elements = 0`. -/
def heartBeatLayout (ver : ProtocolVersion) : PktLayout :=
  ⟨ver, [], true, 4, some 0⟩

/-- `CBPacketSetDOut`: chan u16, value u16. -/
def setDOutLayout (ver : ProtocolVersion) : PktLayout :=
  ⟨ver, [2, 2], false, 0, none⟩

/-- `CBPacketGroupInfo`: proc u32, group u32, label char×16, period u32,
length u32; trailing u16 chan list, `max_elements = 272`. -/
def groupInfoLayout (ver : ProtocolVersion) : PktLayout :=
  ⟨ver, [4, 4, 16, 4, 4], true, 2, some 272⟩

/-- `CBPacketFiltInfo`: proc u32, filt u32, label char×16, hpfreq/hporder/
hptype/lpfreq/lporder/lptype u32, gain f64 and eight sos f64 coefficients. -/
def filtInfoLayout (ver : ProtocolVersion) : PktLayout :=
  ⟨ver, [4, 4, 16, 4, 4, 4, 4, 4, 4] ++ List.replicate 9 8, false, 0, none⟩

/-- `CBPacketProcInfo`: proc u32, idcode u32, ident char×64, then ten u32
fields (chanbase..version). -/
def procInfoLayout (ver : ProtocolVersion) : PktLayout :=
  ⟨ver, [4, 4, 64] ++ List.replicate 10 4, false, 0, none⟩

/-- `CBPacketBankInfo`: proc u32, bank u32, idcode u32, ident char×64,
label char×16, chanbase u32, chancount u32. -/
def bankInfoLayout (ver : ProtocolVersion) : PktLayout :=
  ⟨ver, [4, 4, 4, 64, 16, 4, 4], false, 0, none⟩

/-- `CBPacketNTrodeInfo`: ntrode u32, label char×16,
ellipses `CBManualUnitMapping×6×5`, nSite u16, fs u16, nchan u16×4. -/
def nTrodeInfoLayout (ver : ProtocolVersion) : PktLayout :=
  ⟨ver, [4, 16] ++ (List.replicate 30 cbManualUnitMappingW).flatten ++ [2, 2, 8],
    false, 0, none⟩

/-- `CBPacketAdaptFiltInfo`: chan u32, nMode u32, dLearningRate f32,
nRefChan1 u32, nRefChan2 u32. -/
def adaptFiltInfoLayout (ver : ProtocolVersion) : PktLayout :=
  ⟨ver, [4, 4, 4, 4, 4], false, 0, none⟩

/-- `CBPacketRefElecFiltInfo`: chan u32, nMode u32, nRefChan u32. -/
def refElecFiltInfoLayout (ver : ProtocolVersion) : PktLayout :=
  ⟨ver, [4, 4, 4], false, 0, none⟩

/-- `CBPacketLNC`: lncFreq u32, lncRefChan u32, lncGlobalMode u32. -/
def lncLayout (ver : ProtocolVersion) : PktLayout :=
  ⟨ver, [4, 4, 4], false, 0, none⟩

/-- `CBPacketFileCFG`: options/duration/recording/extctrl u32; trailing char
array, `max_elements = 256 + 256 + 256`. -/
def fileCFGLayout (ver : ProtocolVersion) : PktLayout :=
  ⟨ver, [4, 4, 4, 4], true, 1, some 768⟩

/-- `CBPacketVideoTrack`: parentID/nodeID/nodeCount/pointCount u16; trailing
u16 coords, `max_elements = 128`. -/
def videoTrackLayout (ver : ProtocolVersion) : PktLayout :=
  ⟨ver, [2, 2, 2, 2], true, 2, some 128⟩

/-- `CBPacketLog`: mode u16, name char×16, desc char×128; trailing char
array, `max_elements = 128`. -/
def logLayout (ver : ProtocolVersion) : PktLayout :=
  ⟨ver, [2, 16, 128], true, 1, some 128⟩

/-- `CBPacketVideoSynch`: split u16, frame u32, etime u32, id u16. -/
def videoSynchLayout (ver : ProtocolVersion) : PktLayout :=
  ⟨ver, [2, 4, 4, 2], false, 0, none⟩

/-- `CBPacketGyro`: gyroscope u8×4, accelerometer u8×4, magnetometer u8×4,
temperature u16, reserved u16. -/
def gyroLayout (ver : ProtocolVersion) : PktLayout :=
  ⟨ver, [4, 4, 4, 2, 2], false, 0, none⟩

/-- `CBPacketSysInfo` before protocol 4.2 (`v311.py`): sysfreq, spikelen,
spikepre, resetque, runlevel, runflags (all u32). -/
def sysInfoLayout (ver : ProtocolVersion) : PktLayout :=
  ⟨ver, [4, 4, 4, 4, 4, 4], false, 0, none⟩

/-- `CBPacketSysInfo` from protocol 4.2 (`v42.py`): adds transport u16 and
reserved u8×2. -/
def sysInfo42Layout : PktLayout :=
  ⟨.v41, [4, 4, 4, 4, 4, 4, 2, 2], false, 0, none⟩

/-- `CBPacketSysProtocolMonitor` before 4.1: sentpkts u32. -/
def sysProtocolMonitorLayout (ver : ProtocolVersion) : PktLayout :=
  ⟨ver, [4], false, 0, none⟩

/-- `CBPacketSysProtocolMonitor` from 4.1: sentpkts u32, counter u32. -/
def sysProtocolMonitor41Layout : PktLayout :=
  ⟨.v41, [4, 4], false, 0, none⟩

/-- `CBPacketChanInfo` before 4.1 (`v311.py`): ten u32 capability fields,
two scaling/filter pairs, label char×16, userflags u32, position i32×4, user
scaling pair, four u32 option fields, an 8-byte union, trigtype u8, trigchan
u16, trigval u16, thirteen u32/i32 pathway fields, amplrejpos/amplrejneg i16,
refelecchan u32, unitmapping `CBManualUnitMapping×5`, spkhoops
`CBHoop×5×4`. -/
def chanInfoLayout (ver : ProtocolVersion) : PktLayout :=
  ⟨ver,
    List.replicate 10 4 ++
      cbScalingW ++ cbFiltDescW ++ cbScalingW ++ cbFiltDescW ++
      [16, 4, 16] ++ cbScalingW ++ cbScalingW ++ [4, 4, 4, 4] ++ [8] ++
      [1, 2, 2] ++ List.replicate 13 4 ++ [2, 2, 4] ++
      (List.replicate 5 cbManualUnitMappingW).flatten ++
      (List.replicate 20 cbHoopW).flatten,
    false, 0, none⟩

/-- `CBPacketChanInfo` from 4.1 (`v41.py`): same as the pre-4.1 layout except
the trigger cluster is trigtype u8, reserved u8×2, triginst u8, trigchan u16,
trigval u16. -/
def chanInfo41Layout : PktLayout :=
  ⟨.v41,
    List.replicate 10 4 ++
      cbScalingW ++ cbFiltDescW ++ cbScalingW ++ cbFiltDescW ++
      [16, 4, 16] ++ cbScalingW ++ cbScalingW ++ [4, 4, 4, 4] ++ [8] ++
      [1, 2, 1, 2, 2] ++ List.replicate 13 4 ++ [2, 2, 4] ++
      (List.replicate 5 cbManualUnitMappingW).flatten ++
      (List.replicate 20 cbHoopW).flatten,
    false, 0, none⟩

/-- `CBPacketDIn` before 4.0 (`v311.py`): header only, trailing u32 data;
the class does not override the abstract `max_elements`. -/
def dInLayout (ver : ProtocolVersion) : PktLayout :=
  ⟨ver, [], true, 4, none⟩

/-- `CBPacketDIn` from 4.0 (`v40.py`): valueRead u32, bitsChanged u32,
eventType u32 (fixed size). -/
def dIn40Layout (ver : ProtocolVersion) : PktLayout :=
  ⟨ver, [4, 4, 4], false, 0, none⟩

/-- `CBPacketNPlay` before 4.0: ftime/stime/etime/val u32, mode u16,
flags u16, speed f32; trailing char fname, `max_elements = 992`. -/
def nPlayLayout (ver : ProtocolVersion) : PktLayout :=
  ⟨ver, [4, 4, 4, 4, 2, 2, 4], true, 1, some 992⟩

/-- `CBPacketNPlay` from 4.0: ftime/stime/etime/val widen to u64. -/
def nPlay40Layout (ver : ProtocolVersion) : PktLayout :=
  ⟨ver, [8, 8, 8, 8, 2, 2, 4], true, 1, some 992⟩

/-- `CBPacketComment` before 4.0: info (charset u8, flags u8, reserved u8×2),
data u32; trailing char comment, `max_elements = 128`. -/
def commentLayout (ver : ProtocolVersion) : PktLayout :=
  ⟨ver, [1, 1, 2, 4], true, 1, some 128⟩

/-- `CBPacketComment` from 4.0: info (charset u8, reserved u8×3),
timeStarted u64, rgba u32; trailing char comment, `max_elements = 128`. -/
def comment40Layout (ver : ProtocolVersion) : PktLayout :=
  ⟨ver, [1, 3, 8, 4], true, 1, some 128⟩

/-- Every concrete packet class available at wire version 3.11
(`config.protocol = "3.11"` selects the `v311` variants). -/
def registryV311 : List PktLayout :=
  [spikeLayout .v311, groupLayout .v311, genericLayout .v311,
    heartBeatLayout .v311, setDOutLayout .v311, groupInfoLayout .v311,
    filtInfoLayout .v311, procInfoLayout .v311, bankInfoLayout .v311,
    nTrodeInfoLayout .v311, adaptFiltInfoLayout .v311,
    refElecFiltInfoLayout .v311, lncLayout .v311, fileCFGLayout .v311,
    videoTrackLayout .v311, logLayout .v311, videoSynchLayout .v311,
    gyroLayout .v311, sysInfoLayout .v311, sysProtocolMonitorLayout .v311,
    chanInfoLayout .v311, dInLayout .v311, nPlayLayout .v311,
    commentLayout .v311]

/-- Every concrete packet class available at wire version 4.0. -/
def registryV40 : List PktLayout :=
  [spikeLayout .v40, groupLayout .v40, genericLayout .v40,
    heartBeatLayout .v40, setDOutLayout .v40, groupInfoLayout .v40,
    filtInfoLayout .v40, procInfoLayout .v40, bankInfoLayout .v40,
    nTrodeInfoLayout .v40, adaptFiltInfoLayout .v40,
    refElecFiltInfoLayout .v40, lncLayout .v40, fileCFGLayout .v40,
    videoTrackLayout .v40, logLayout .v40, videoSynchLayout .v40,
    gyroLayout .v40, sysInfoLayout .v40, sysProtocolMonitorLayout .v40,
    chanInfoLayout .v40, dIn40Layout .v40, nPlay40Layout .v40,
    comment40Layout .v40]

/-- Every concrete packet class available at wire versions 4.1 and later
(protocol 4.1 selects the pre-4.2 SysInfo, protocol ≥ 4.2 the 4.2 layout;
both use the 4.1 header). -/
def registryV41 : List PktLayout :=
  [spikeLayout .v41, groupLayout .v41, genericLayout .v41,
    heartBeatLayout .v41, setDOutLayout .v41, groupInfoLayout .v41,
    filtInfoLayout .v41, procInfoLayout .v41, bankInfoLayout .v41,
    nTrodeInfoLayout .v41, adaptFiltInfoLayout .v41,
    refElecFiltInfoLayout .v41, lncLayout .v41, fileCFGLayout .v41,
    videoTrackLayout .v41, logLayout .v41, videoSynchLayout .v41,
    gyroLayout .v41, sysInfoLayout .v41, sysInfo42Layout,
    sysProtocolMonitor41Layout, chanInfo41Layout, dIn40Layout .v41,
    nPlay40Layout .v41, comment40Layout .v41]

/-- All concrete classes across the three header versions. -/
def fullRegistry : List PktLayout := registryV311 ++ registryV40 ++ registryV41

/-! ## Wire encoding (`_send_packet`, `nsp.py`)

`_send_packet` serializes the packet and truncates the byte count down to a
multiple of 4 before handing it to the transport
(`n_send = n_bytes - n_bytes % 4`), matching the firmware's own truncation of
struct sizes. -/

def encodeWire (L : PktLayout) (p : CBPacket) : List Nat :=
  (encodePacket L p).take
    ((encodePacket L p).length - (encodePacket L p).length % 4)

/-- `CBPacketVarLen._body_nbytes`: fixed struct minus header plus trailing
array bytes.  For fixed-size classes the array is empty and this is
`sizeof(cls) - sizeof(header)`. -/
def bodyNBytes (L : PktLayout) (p : CBPacket) : Nat :=
  L.bodyW.sum + L.elemSize * p.arr.length

/-- Default-constructed v3.11 `CBPacketChanInfo`
(`CBPacketConfigFixed.__init__`): `time = 0`, `chid = CONFIGURATION = 0x8000`,
`type = CHANSET = 0xC0`, `dlen = (sizeof(cls) - sizeof(header)) // 4
= 661 // 4 = 165`, every body field zero. -/
def chanInfoV311Default : CBPacket :=
  ⟨⟨0, 0x8000, 0xC0, 165, 0, 0⟩, List.replicate 180 0, []⟩

/-- A v4.1 `CBPacketSpike` with chid 14, unit 2 and a 3-sample waveform. -/
def spikeExample : CBPacket :=
  ⟨⟨0, 14, 2, 5, 0, 0⟩, [0, 0, 0, 0, 0], [100, 200, 300]⟩

/-! ## Packet type and capability constants (`cbhw/packet/common.py`,
`cbhw/device/nsp.py`) -/

namespace CBPacketType

def SYSHEARTBEAT : Nat := 0x00

def SYSPROTOCOLMONITOR : Nat := 0x01

def REPCONFIGALL : Nat := 0x08

def REQCONFIGALL : Nat := 0x88

def SYSREP : Nat := 0x10

def SYSSET : Nat := 0x90

def SYSREPSPKLEN : Nat := 0x11

def SYSSETSPKLEN : Nat := 0x91

def SYSREPRUNLEV : Nat := 0x12

def SYSSETRUNLEV : Nat := 0x92

def PROCREP : Nat := 0x21

def BANKREP : Nat := 0x22

def FILTREP : Nat := 0x23

def FILTSET : Nat := 0xA3

def ADAPTFILTREP : Nat := 0x25

def ADAPTFILTSET : Nat := 0xA5

def REFELECFILTREP : Nat := 0x26

def REFELECFILTSET : Nat := 0xA6

def REPNTRODEINFO : Nat := 0x27

def SETNTRODEINFO : Nat := 0xA7

def LNCREP : Nat := 0x28

def LNCSET : Nat := 0xA8

def VIDEOSYNCHREP : Nat := 0x29

def VIDEOSYNCHSET : Nat := 0xA9

def GROUPREP : Nat := 0x30

def GROUPSET : Nat := 0xB0

def COMMENTREP : Nat := 0x31

def COMMENTSET : Nat := 0xB1

def CHANREP : Nat := 0x40

def CHANSET : Nat := 0xC0

def CHANREPLABEL : Nat := 0x41

def CHANREPSCALE : Nat := 0x42

def CHANREPDOUT : Nat := 0x43

def CHANREPDINP : Nat := 0x44

def CHANREPAOUT : Nat := 0x45

def CHANREPDISP : Nat := 0x46

def CHANREPAINP : Nat := 0x47

def CHANREPSMP : Nat := 0x48

def CHANREPSPK : Nat := 0x49

def CHANREPSPKTHR : Nat := 0x4A

def CHANSETSPKTHR : Nat := 0xCA

def CHANREPSPKHPS : Nat := 0x4B

def CHANREPUNITOVERRIDES : Nat := 0x4C

def CHANREPNTRODEGROUP : Nat := 0x4D

def CHANREPREJECTAMPLITUDE : Nat := 0x4E

def CHANREPAUTOTHRESHOLD : Nat := 0x4F

def SS_MODELALLREP : Nat := 0x50

def SS_MODELALLSET : Nat := 0xD0

def SS_DETECTREP : Nat := 0x52

def SS_DETECTSET : Nat := 0xD2

def SS_ARTIF_REJECTREP : Nat := 0x53

def SS_ARTIF_REJECTSET : Nat := 0xD3

def SS_NOISE_BOUNDARYREP : Nat := 0x54

def SS_NOISE_BOUNDARYSET : Nat := 0xD4

def SS_STATISTICSREP : Nat := 0x55

def SS_STATISTICSSET : Nat := 0xD5

def SS_STATUSREP : Nat := 0x57

def SS_STATUSSET : Nat := 0xD7

def NPLAYREP : Nat := 0x5C

def NPLAYSET : Nat := 0xDC

def SET_DOUTREP : Nat := 0x5D

def SET_DOUTSET : Nat := 0xDD

def VIDEOTRACKREP : Nat := 0x5F

def VIDEOTRACKSET : Nat := 0xDF

def REPFILECFG : Nat := 0x61

def SETFILECFG : Nat := 0xE1

def LOGREP : Nat := 0x63

def LOGSET : Nat := 0xE3

end CBPacketType

namespace CBChanCaps

def isolated : Nat := 0x00000004

def ainp : Nat := 0x00000100

def aout : Nat := 0x00000200

def dinp : Nat := 0x00000400

def dout : Nat := 0x00000800

end CBChanCaps

/-- `CBDigInpCaps.serialmask`. -/
def serialmask : Nat := 0x000000FF

/-- `CBAnaOutCaps.audio`. -/
def aoutAudio : Nat := 0x00000001

namespace CBAnaInpOpts

def lnc_mask : Nat := 0x00000007

def refelec_mask : Nat := 0x00000030

def refelec_rawstream : Nat := 0x00000040

def refelec_offsetcorrect : Nat := 0x00000100

end CBAnaInpOpts

namespace CBAInpSpk

def EXTRACT : Nat := 0x00000001

def THRAUTO : Nat := 0x00000400

end CBAInpSpk

/-- `CBChannelType` (`common.py`): `Any = -1`, `Group = 0`, then the six
per-channel classes. -/
inductive CBChannelType
  | Any
  | Group
  | FrontEnd
  | AnalogIn
  | DigitalIn
  | DigitalOut
  | Serial
  | Audio
  deriving DecidableEq, Repr

/-- The `IntEnum` value of each channel type; Python truthiness of a channel
type is `chanTypeVal ct ≠ 0`. -/
def chanTypeVal : CBChannelType → Int
  | .Any => -1
  | .Group => 0
  | .FrontEnd => 1
  | .AnalogIn => 2
  | .DigitalIn => 3
  | .DigitalOut => 4
  | .Serial => 5
  | .Audio => 6

/-! ## Channel records and the configuration mirror
(`cbhw/device/nsp.py`, `cbhw/device/base.py` — the `src/` revision) -/

/-- The fields of a `cbPKT_CHANINFO` packet that the device code reads or
writes, plus the two header fields `_handle_chaninfo` consults.  Fields the
mirror copies opaquely (label, scaling, hoops, ...) are kept as opaque
values. -/
structure ChanInfoRec where
  headerType : Nat
  headerInstrument : Nat
  chan : Nat
  chancaps : Nat
  doutcaps : Nat
  dinpcaps : Nat
  aoutcaps : Nat
  ainpopts : Nat
  dinpopts : Nat
  doutopts : Nat
  aoutopts : Nat
  eopchar : Nat
  lncrate : Nat
  refelecchan : Nat
  spkopts : Nat
  spkfilter : Nat
  smpfilter : Nat
  smpgroup : Nat
  spkthrlevel : Nat
  amplrejpos : Nat
  amplrejneg : Nat
  label : Nat
  userflags : Nat
  scalin : Nat
  scalout : Nat
  spkhoops : Nat
  deriving DecidableEq, Repr

/-- `get_chantype_from_chaninfo` (`nsp.py`).  The Python function has no
final `else`: when no branch fires it implicitly returns `None`, which we
model as `none`. -/
def get_chantype_from_chaninfo (pkt : ChanInfoRec) : Option CBChannelType :=
  if CBChanCaps.isolated ||| CBChanCaps.ainp =
      pkt.chancaps &&& (CBChanCaps.isolated ||| CBChanCaps.ainp) then
    some .FrontEnd
  else if pkt.chancaps &&& CBChanCaps.ainp ≠ 0 ∧
      pkt.chancaps &&& CBChanCaps.isolated = 0 then
    some .AnalogIn
  else if pkt.chancaps &&& CBChanCaps.dinp ≠ 0 then
    if pkt.dinpcaps &&& serialmask ≠ 0 then some .Serial else some .DigitalIn
  else if pkt.chancaps &&& CBChanCaps.dout ≠ 0 then
    some .DigitalOut
  else if pkt.chancaps &&& CBChanCaps.aout ≠ 0 ∧
      pkt.aoutcaps &&& aoutAudio ≠ 0 then
    some .Audio
  else
    none

/-- The classification rule as the specification words it (§4.5), with the
final case corrected to "no class" as the code actually behaves. -/
def chantype_decision_list (pkt : ChanInfoRec) : Option CBChannelType :=
  if pkt.chancaps &&& CBChanCaps.isolated ≠ 0 ∧
      pkt.chancaps &&& CBChanCaps.ainp ≠ 0 then some .FrontEnd
  else if pkt.chancaps &&& CBChanCaps.ainp ≠ 0 then some .AnalogIn
  else if pkt.chancaps &&& CBChanCaps.dinp ≠ 0 ∧
      pkt.dinpcaps &&& serialmask ≠ 0 then some .Serial
  else if pkt.chancaps &&& CBChanCaps.dinp ≠ 0 then some .DigitalIn
  else if pkt.chancaps &&& CBChanCaps.dout ≠ 0 then some .DigitalOut
  else if pkt.chancaps &&& CBChanCaps.aout ≠ 0 ∧
      pkt.aoutcaps &&& aoutAudio ≠ 0 then some .Audio
  else none

/-- Python `dict` assignment `d[k] = v` on an association list: overwrite an
existing key in place, otherwise append. -/
def alInsert {β : Type} (l : List (Nat × β)) (k : Nat) (v : β) :
    List (Nat × β) :=
  if (l.lookup k).isSome then
    l.map (fun p => if p.1 = k then (k, v) else p)
  else
    l ++ [(k, v)]

/-- The parts of the device's `_config` dict that the claims consult.
`instrument` is initialized to `-1` (so it is an `Int`); `channel_types` is a
`defaultdict` whose stored values come from `get_chantype_from_chaninfo` and
may be Python `None`. -/
structure ConfigMirror where
  instrument : Int
  proc_chans : Nat
  channel_infos : List (Nat × ChanInfoRec)
  channel_types : List (Nat × Option CBChannelType)
  group_nchans : List (Nat × Nat)
  deriving DecidableEq, Repr

/-- `defaultdict(lambda: CBChannelType.Any)` lookup on `channel_types`:
a missing key yields `Any`; a present key yields the stored value, which may
be Python `None`. -/
def chanTypesLookup (m : List (Nat × Option CBChannelType)) (k : Nat) :
    Option CBChannelType :=
  match m.lookup k with
  | some v => v
  | none => some .Any

/-- The scoped `CHANREP*` types under which `_handle_chaninfo` writes into
`channel_infos[pkt.chan]` (a missing key then raises `KeyError`); the
remaining scoped types only `pass`. -/
def scopedTouches (t : Nat) : Bool :=
  t = CBPacketType.CHANREPAINP || t = CBPacketType.CHANREPSPK ||
    t = CBPacketType.CHANREPREJECTAMPLITUDE ||
    t = CBPacketType.CHANREPAUTOTHRESHOLD || t = CBPacketType.CHANREPSMP ||
    t = CBPacketType.CHANREPSPKHPS || t = CBPacketType.CHANREPAOUT ||
    t = CBPacketType.CHANREPSCALE || t = CBPacketType.CHANREPDINP ||
    t = CBPacketType.CHANREPDOUT || t = CBPacketType.CHANREPLABEL ||
    t = CBPacketType.CHANSETSPKTHR || t = CBPacketType.CHANREPSPKTHR

/-- The field overlay a scoped `CHANREP*` reply applies to the stored record
(`_handle_chaninfo`, scoped branches). -/
def applyScoped (t : Nat) (old pkt : ChanInfoRec) : ChanInfoRec :=
  if t = CBPacketType.CHANREPAINP then
    { old with
      ainpopts := pkt.ainpopts
      lncrate := pkt.lncrate
      refelecchan := pkt.refelecchan }
  else if t = CBPacketType.CHANREPSPK then
    { old with spkopts := pkt.spkopts, spkfilter := pkt.spkfilter }
  else if t = CBPacketType.CHANREPREJECTAMPLITUDE then
    { old with
      spkopts := pkt.spkopts
      amplrejpos := pkt.amplrejpos
      amplrejneg := pkt.amplrejneg }
  else if t = CBPacketType.CHANREPAUTOTHRESHOLD then
    { old with spkopts := pkt.spkopts }
  else if t = CBPacketType.CHANREPSMP then
    { old with smpfilter := pkt.smpfilter, smpgroup := pkt.smpgroup }
  else if t = CBPacketType.CHANREPSPKHPS then
    { old with spkhoops := pkt.spkhoops }
  else if t = CBPacketType.CHANREPAOUT then
    { old with aoutopts := pkt.aoutopts }
  else if t = CBPacketType.CHANREPSCALE then
    { old with scalin := pkt.scalin, scalout := pkt.scalout }
  else if t = CBPacketType.CHANREPDINP then
    { old with dinpopts := pkt.dinpopts, eopchar := pkt.eopchar }
  else if t = CBPacketType.CHANREPDOUT then
    { old with doutopts := pkt.doutopts, doutcaps := pkt.doutcaps }
  else if t = CBPacketType.CHANREPLABEL then
    { old with label := pkt.label, userflags := pkt.userflags }
  else if t = CBPacketType.CHANSETSPKTHR ∨ t = CBPacketType.CHANREPSPKTHR then
    { old with spkthrlevel := pkt.spkthrlevel }
  else
    old

/-- `NSPDevice._handle_chaninfo`.  A reply whose header instrument differs
from the mirror's, or whose `chan` exceeds `proc_chans`, is dropped (the
mirror is untouched).  A full-scope `CHANREP` overwrites `channel_infos` and
re-classifies `channel_types`.  A scoped reply patches only its own fields;
it raises `KeyError` (modelled as `none`) when the channel has no stored
record. -/
def handle_chaninfo (cfg : ConfigMirror) (pkt : ChanInfoRec) :
    Option ConfigMirror :=
  if (pkt.headerInstrument : Int) ≠ cfg.instrument ∨
      cfg.proc_chans < pkt.chan then
    some cfg
  else if pkt.headerType = CBPacketType.CHANREP then
    some { cfg with
      channel_infos := alInsert cfg.channel_infos pkt.chan pkt
      channel_types := alInsert cfg.channel_types pkt.chan
        (get_chantype_from_chaninfo pkt) }
  else if scopedTouches pkt.headerType then
    match cfg.channel_infos.lookup pkt.chan with
    | none => none
    | some old =>
      some { cfg with
        channel_infos := alInsert cfg.channel_infos pkt.chan
          (applyScoped pkt.headerType old pkt) }
  else
    some cfg

/-- `NSPDevice._handle_procinfo`: store `pkt.chancount` as `proc_chans`. -/
def handle_procinfo (cfg : ConfigMirror) (chancount : Nat) : ConfigMirror :=
  { cfg with proc_chans := chancount }

/-! ## `get_config` with `force_refresh` (`nsp.py`) -/

/-- The configuration replies relevant to the `REQCONFIGALL` refresh that the
mirror-updating callbacks handle. -/
inductive ConfigReply
  | procinfo (chancount : Nat)
  | chaninfo (pkt : ChanInfoRec)
  deriving DecidableEq, Repr

def handle_reply (cfg : ConfigMirror) : ConfigReply → Option ConfigMirror
  | .procinfo n => some (handle_procinfo cfg n)
  | .chaninfo pkt => handle_chaninfo cfg pkt

def process_replies (cfg : ConfigMirror) :
    List ConfigReply → Option ConfigMirror
  | [] => some cfg
  | r :: rs =>
    match handle_reply cfg r with
    | none => none
    | some cfg2 => process_replies cfg2 rs

/-- `NSPDevice.get_config(force_refresh=True)`: clear `proc_chans` and
`channel_infos`, send `REQCONFIGALL`, let the handler process the reply
stream, then fail (return `None`) exactly when `proc_chans` is 0 or the
number of stored channel infos differs from `proc_chans`.  The terminal
`SYSINFO` only sets the awaited event; missing it alone merely logs a debug
line.  The outer `Option` models a handler exception while processing
replies. -/
def get_config_force_refresh (cfg : ConfigMirror) (replies : List ConfigReply) :
    Option (Option ConfigMirror) :=
  let cleared := { cfg with proc_chans := 0, channel_infos := [] }
  match process_replies cleared replies with
  | none => none
  | some cfg2 =>
    some (if cfg2.proc_chans = 0 ∨
        cfg2.channel_infos.length ≠ cfg2.proc_chans then
      none
    else
      some cfg2)

/-! ## `configure_channel_disable` (`nsp.py`) and the facade's
`set_channel_disable` (`cbsdk.py`) -/

/-- Python `x &= ~mask` followed by the ctypes `c_uint32` store, for
`x < 2^32`. -/
def clearBits32 (x mask : Nat) : Nat := x &&& (0xFFFFFFFF ^^^ mask)

/-- Python `x |= ~mask` followed by the ctypes `c_uint32` store, for
`x, mask < 2^32`: every low bit outside `mask` is forced to 1 (the Python
value is negative; the store keeps its low 32 bits). -/
def orNot32 (x mask : Nat) : Nat := x ||| (0xFFFFFFFF ^^^ mask)

/-- `NSPDevice.configure_channel_disable` followed by
`configure_channel_by_packet` (which stamps `header.type = CHANSET`): the
packet sent on the wire for `set_channel_disable`. -/
def configure_channel_disable (rec : ChanInfoRec) : ChanInfoRec :=
  let r1 := { rec with spkopts := clearBits32 rec.spkopts CBAInpSpk.EXTRACT }
  let r2 := { r1 with spkopts := clearBits32 r1.spkopts CBAInpSpk.THRAUTO }
  let r3 :=
    { r2 with ainpopts := clearBits32 r2.ainpopts CBAnaInpOpts.refelec_offsetcorrect }
  let r4 := { r3 with ainpopts := clearBits32 r3.ainpopts CBAnaInpOpts.lnc_mask }
  let r5 :=
    { r4 with ainpopts := clearBits32 r4.ainpopts CBAnaInpOpts.refelec_mask }
  let r6 :=
    { r5 with ainpopts := orNot32 r5.ainpopts CBAnaInpOpts.refelec_rawstream }
  let r7 := { r6 with smpgroup := 0, smpfilter := 0 }
  { r7 with headerType := CBPacketType.CHANSET }

/-! ## The packet factory's class resolution
(`cbhw/packet/factory.py`, registrations in `cbhw/packet/packets.py`) -/

/-- The concrete packet classes registered with the factory. -/
inductive PktCls
  | Spike
  | Group
  | Generic
  | HeartBeat
  | DIn
  | SetDOut
  | SysInfo
  | GroupInfo
  | ProcInfo
  | BankInfo
  | Comment
  | ChanInfo
  | NTrodeInfo
  | AdaptFiltInfo
  | Log
  | SysProtocolMonitor
  | RefElecFiltInfo
  | LNC
  | FileCFG
  | VideoTrack
  | VideoSynch
  | NPlay
  | SSModelAll
  | SSDetect
  | SSArtifReject
  | SSNoiseBoundary
  | SSStatistics
  | SSStatus
  deriving DecidableEq, Repr

open CBPacketType in
/-- `_pktcls_by_type` after `register_pktcls_with_factory` ran (keys are
distinct, so dict insertion order does not matter).  Note the source really
does register `CBPacketGroupInfo` for `FILTREP`/`FILTSET`. -/
def pktclsByType : List (Nat × PktCls) :=
  [(REPCONFIGALL, .Generic), (SYSHEARTBEAT, .HeartBeat),
    (SET_DOUTSET, .SetDOut), (SET_DOUTREP, .SetDOut),
    (SYSREP, .SysInfo), (SYSREPSPKLEN, .SysInfo), (SYSREPRUNLEV, .SysInfo),
    (SYSSET, .SysInfo), (SYSSETSPKLEN, .SysInfo), (SYSSETRUNLEV, .SysInfo),
    (GROUPREP, .GroupInfo), (GROUPSET, .GroupInfo),
    (FILTREP, .GroupInfo), (FILTSET, .GroupInfo),
    (PROCREP, .ProcInfo), (BANKREP, .BankInfo),
    (COMMENTREP, .Comment), (COMMENTSET, .Comment),
    (CHANREP, .ChanInfo), (CHANSET, .ChanInfo),
    (REPNTRODEINFO, .NTrodeInfo), (SETNTRODEINFO, .NTrodeInfo),
    (ADAPTFILTREP, .AdaptFiltInfo), (ADAPTFILTSET, .AdaptFiltInfo),
    (LOGSET, .Log), (LOGREP, .Log),
    (SYSPROTOCOLMONITOR, .SysProtocolMonitor),
    (REFELECFILTREP, .RefElecFiltInfo), (REFELECFILTSET, .RefElecFiltInfo),
    (LNCREP, .LNC), (LNCSET, .LNC),
    (REPFILECFG, .FileCFG), (SETFILECFG, .FileCFG),
    (VIDEOTRACKREP, .VideoTrack), (VIDEOTRACKSET, .VideoTrack),
    (VIDEOSYNCHREP, .VideoSynch), (VIDEOSYNCHSET, .VideoSynch),
    (NPLAYSET, .NPlay), (NPLAYREP, .NPlay),
    (SS_MODELALLREP, .SSModelAll), (SS_MODELALLSET, .SSModelAll),
    (SS_DETECTREP, .SSDetect), (SS_DETECTSET, .SSDetect),
    (SS_ARTIF_REJECTREP, .SSArtifReject), (SS_ARTIF_REJECTSET, .SSArtifReject),
    (SS_NOISE_BOUNDARYREP, .SSNoiseBoundary),
    (SS_NOISE_BOUNDARYSET, .SSNoiseBoundary),
    (SS_STATISTICSREP, .SSStatistics), (SS_STATISTICSSET, .SSStatistics),
    (SS_STATUSREP, .SSStatus), (SS_STATUSSET, .SSStatus)]

/-- `_pktcls_by_chantype`: FrontEnd → Spike, Group → Group, DigitalIn → DIn. -/
def pktclsByChantype : List (CBChannelType × PktCls) :=
  [(.FrontEnd, .Spike), (.Group, .Group), (.DigitalIn, .DIn)]

/-- Python `chantype and chantype in self._pktcls_by_chantype`: the hint is
used only when it is given, truthy (`CBChannelType.Group = 0` is falsy!) and
present in the channel-type map. -/
def factoryHintUsable (chantype : Option CBChannelType) : Bool :=
  match chantype with
  | none => false
  | some ct => chanTypeVal ct != 0 &&
      ((pktclsByChantype.lookup ct).isSome : Bool)

/-- `CBPacketFactory.make_packet` class resolution.  Configuration packets
(`chid & 0x8000`) look up the exact type, then the type family
(`type & 0xF0`), then the fallback (`CBPacketGeneric`); otherwise a usable
channel-type hint wins; otherwise `type > 0` selects the sample-group class;
otherwise the fallback. -/
def make_packet_cls (chid pktType : Nat) (chantype : Option CBChannelType) :
    Option PktCls :=
  if chid &&& 0x8000 ≠ 0 then
    match pktclsByType.lookup pktType with
    | some c => some c
    | none =>
      match pktclsByType.lookup (pktType &&& 0xF0) with
      | some c => some c
      | none => some .Generic
  else if factoryHintUsable chantype then
    pktclsByChantype.lookup ((chantype.getD .Any))
  else if 0 < pktType then
    pktclsByChantype.lookup .Group
  else
    some .Generic

/-! ## Factory construction from a buffer (`make_packet`, construction step)

`pkt_cls(data)` raises `ValueError` when the buffer is shorter than the
class's fixed struct; `make_packet` then zero-pads the buffer to
`sizeof(pkt_cls)` and re-interprets it. -/

def make_from_buffer (L : PktLayout) (bs : List Nat) : Option CBPacket :=
  if fixedSize L ≤ bs.length then
    decodePacket L bs
  else
    decodePacket L (bs ++ List.replicate (fixedSize L - bs.length) 0)

/-- Byte offset of the `i`-th fixed body field inside the whole packet. -/
def fieldOffset (L : PktLayout) (i : Nat) : Nat :=
  headerSize L.ver + (L.bodyW.take i).sum

/-! ## The packet handler thread (`cbhw/handler.py` — the `src/` revision)
and callback registries (`cbhw/device/base.py`) -/

/-- `DeviceInterface.__init__` creates `group_callbacks` with an empty list
for each supported sample group 1..6 only. -/
def defaultGroupCallbacks : List (Nat × List Nat) :=
  [(1, []), (2, []), (3, []), (4, []), (5, []), (6, [])]

/-- `event_callbacks` is initialized with an empty list for every channel
type. -/
def defaultEventCallbacks : List (CBChannelType × List Nat) :=
  [(.Any, []), (.Group, []), (.FrontEnd, []), (.AnalogIn, []),
    (.DigitalIn, []), (.DigitalOut, []), (.Serial, []), (.Audio, [])]

/-- The device state the handler thread reads and writes.  Callbacks are
identified by opaque numeric ids. -/
structure DeviceState where
  config : ConfigMirror
  group_callbacks : List (Nat × List Nat)
  event_callbacks : List (CBChannelType × List Nat)
  config_callbacks : List (Nat × List Nat)
  pkts_received : Nat
  last_time : Nat
  deriving DecidableEq, Repr

/-- A `(pkt_time, chid, pkt_type, dlen, data)` tuple from the receiver
queue; `data` is the whole packet's bytes. -/
structure RecvTuple where
  time : Nat
  chid : Nat
  pktType : Nat
  dlen : Nat
  data : List Nat
  deriving DecidableEq, Repr

/-- Observable actions of one loop iteration of `PacketHandlerThread.run`. -/
inductive HandlerEvent
  | warnOutOfOrder (lastGroupTime : Int) (newTime : Nat)
  | dispatch (cb : Nat) (time chid pktType : Nat)
  deriving DecidableEq, Repr

/-- The run-loop locals: `last_group_time = -1`, `last_group_data = None`. -/
structure HandlerState where
  dev : DeviceState
  last_group_time : Int
  last_group_data : Option (List Nat)
  deriving DecidableEq, Repr

/-- Recipient resolution of `PacketHandlerThread.run`: configuration packets
use `config_callbacks[type]` (a defaultdict), group packets use
`group_callbacks[type]` when the group id is a key (`None` otherwise — the
known CSCI-95 bug), events use `event_callbacks[chantype]` plus
`event_callbacks[Any]`.  Returns the callback list (or Python `None`) and
the `b_grp` flag; `none` models a `KeyError` (a stored `None` channel
type). -/
def resolveCallbacks (dev : DeviceState) (chid pktType : Nat)
    (chantype : Option CBChannelType) :
    Option (Option (List Nat) × Bool) :=
  if chid &&& 0x8000 ≠ 0 then
    some (some ((dev.config_callbacks.lookup pktType).getD []), false)
  else if chid = 0 then
    match dev.group_callbacks.lookup pktType with
    | some l => some (some l, true)
    | none => some (none, false)
  else
    match chantype with
    | none => none
    | some ct =>
      match dev.event_callbacks.lookup ct with
      | none => none
      | some l =>
        if ct ≠ CBChannelType.Any then
          match dev.event_callbacks.lookup CBChannelType.Any with
          | none => none
          | some lany => some (some (l ++ lany), false)
        else
          some (some l, false)

/-- The clock-maintenance prefix of one `PacketHandlerThread.run` iteration:
count the packet, advance `last_time` when the packet's time is strictly
greater, remember the last in-order group-6 packet, and emit the
out-of-order warning for a group-6 packet older than `last_group_time`
(`struct.unpack` needs at least 4 data bytes; `none` models the raise). -/
def handlerClock (st : HandlerState) (pkt : RecvTuple) :
    Option (DeviceState × Int × Option (List Nat) × List HandlerEvent) :=
  let dev0 := { st.dev with pkts_received := st.dev.pkts_received + 1 }
  if dev0.last_time < pkt.time then
    if pkt.chid = 0 ∧ pkt.pktType = 6 then
      if pkt.data.length < 4 then none
      else some ({ dev0 with last_time := pkt.time }, (pkt.time : Int),
        some (pkt.data.take 4), [])
    else some ({ dev0 with last_time := pkt.time }, st.last_group_time,
      st.last_group_data, [])
  else if pkt.chid = 0 ∧ pkt.pktType = 6 ∧
      (pkt.time : Int) < st.last_group_time then
    if pkt.data.length < 4 then none
    else some (dev0, st.last_group_time, st.last_group_data,
      [HandlerEvent.warnOutOfOrder st.last_group_time pkt.time])
  else some (dev0, st.last_group_time, st.last_group_data, [])

/-- One iteration of `PacketHandlerThread.run` on a dequeued tuple.
Returns the new state and the emitted events, or `none` when the Python code
would raise (`struct.unpack` on fewer than 4 bytes, `KeyError` on
`group_nchans` or on a `None` channel type). -/
def handlerStep (st : HandlerState) (pkt : RecvTuple) :
    Option (HandlerState × List HandlerEvent) :=
  match handlerClock st pkt with
  | none => none
  | some (dev1, lgt, lgd, evs) =>
    -- channel type for this chid from the mirror (defaultdict: Any)
    let chantype := chanTypesLookup dev1.config.channel_types pkt.chid
    match resolveCallbacks dev1 pkt.chid pkt.pktType chantype with
    | none => none
    | some (callbacks, b_grp) =>
      match callbacks with
      | some (cb :: cbs) =>
        -- only now is the packet decoded; group packets consult
        -- `config["group_nchans"][pkt_type]` (KeyError when missing)
        if b_grp ∧ (dev1.config.group_nchans.lookup pkt.pktType).isNone then
          none
        else
          some (⟨dev1, lgt, lgd⟩,
            evs ++ (cb :: cbs).map
              (fun c => HandlerEvent.dispatch c pkt.time pkt.chid pkt.pktType))
      | _ => some (⟨dev1, lgt, lgd⟩, evs)

/-- Drain a list of queued tuples in order, accumulating events. -/
def handlerRun (st : HandlerState) :
    List RecvTuple → Option (HandlerState × List HandlerEvent)
  | [] => some (st, [])
  | p :: ps =>
    match handlerStep st p with
    | none => none
    | some (st2, evs) =>
      match handlerRun st2 ps with
      | none => none
      | some (st3, evs2) => some (st3, evs ++ evs2)

/-- Count the out-of-order warnings among the emitted events. -/
def countWarnings (evs : List HandlerEvent) : Nat :=
  (evs.filter (fun e => match e with
    | .warnOutOfOrder _ _ => true
    | _ => false)).length

/-! ## Claim theorems -/

/-- A channel record whose capability words are all zero (chan 1,
full-scope `CHANREP` from instrument 0). -/
def chanInfoRecZero : ChanInfoRec :=
  ⟨CBPacketType.CHANREP, 0, 1, 0, 0, 0, 0, 0, 0, 0, 0, 0, 0, 0, 0, 0, 0, 0,
    0, 0, 0, 0, 0, 0, 0, 0⟩

/-- The configuration mirror of a device whose instrument id is 0 and whose
processor claims 3 channels. -/
def cfgInstr0 : ConfigMirror := ⟨0, 3, [], [], []⟩

/-- A full-scope `CHANREP` for channel 0 sent by instrument 0. -/
def chanRepChan0 : ChanInfoRec :=
  ⟨CBPacketType.CHANREP, 0, 0, 0, 0, 0, 0, 0, 0, 0, 0, 0, 0, 0, 0, 0, 0, 0,
    0, 0, 0, 0, 0, 0, 0, 0⟩

/-- The callback registries of a freshly constructed `DeviceInterface`
(empty mirror, the 1..6 group-callback lists, per-type event lists). -/
def devDefault : DeviceState :=
  ⟨⟨-1, 0, [], [], []⟩, defaultGroupCallbacks, defaultEventCallbacks, [],
    0, 1⟩

/-- The §8/S6 scenario mirror: instrument 0 already discovered, nothing
else known. -/
def cfgS6 : ConfigMirror := ⟨0, 0, [], [], []⟩

/-- A full-scope `CHANREP` for channel `i` from instrument 0. -/
def chanRepFor (i : Nat) : ChanInfoRec :=
  ⟨CBPacketType.CHANREP, 0, i, 0, 0, 0, 0, 0, 0, 0, 0, 0, 0, 0, 0, 0, 0, 0,
    0, 0, 0, 0, 0, 0, 0, 0⟩

/-- The mirror after `cfgInstr0` handles a full-scope `CHANREP` for
channel 2 with no capability bits. -/
def cfgC3After : ConfigMirror := ⟨0, 3, [(2, chanRepFor 2)], [(2, none)], []⟩

/-- The S6 reply stream: `PROCINFO{chancount=3}` then `CHANREP` for channels
1..3, and no terminal `SYSINFO`. -/
def repliesS6 : List ConfigReply :=
  [.procinfo 3, .chaninfo (chanRepFor 1), .chaninfo (chanRepFor 2),
    .chaninfo (chanRepFor 3)]

/-- The mirror after the S6 stream. -/
def cfgS6After : ConfigMirror :=
  ⟨0, 3, [(1, chanRepFor 1), (2, chanRepFor 2), (3, chanRepFor 3)],
    [(1, none), (2, none), (3, none)], []⟩

/-- Scenario S1's packet as built at wire version 4.1: `config.protocol =
"4.1"` has minor version < 2, so `packets.py` imports `CBPacketSysInfo` from
`v311.py` (no `transport` field, 24-byte body) while using the 4.1 header;
the default constructor stamps `chid = 0x8000`, `type = SYSSET = 0x90` and
`dlen = 24 // 4 = 6`. -/
def sysInfo41Example : CBPacket :=
  ⟨⟨0, 0x8000, 0x90, 6, 0, 0⟩, [30000, 60, 22, 0, 50, 0], []⟩

/-- A channel record whose `ainpopts` has the raw-stream bit set along with
an LNC mode and the offset-correct flag. -/
def chanRecRaw : ChanInfoRec :=
  { chanRepFor 3 with ainpopts := 0x147 }

/-- The S5 device: a callback (id 7) registered for group 6, group 6 known
to carry 2 channels, fresh mirror, `last_time = 1` as `NSPDevice.__init__`
sets it. -/
def s5Device : DeviceState :=
  ⟨⟨0, 0, [], [], [(6, 2)]⟩,
    [(1, []), (2, []), (3, []), (4, []), (5, []), (6, [7])],
    defaultEventCallbacks, [], 0, 1⟩

/-- Run-loop start: `last_group_time = -1`, `last_group_data = None`. -/
def s5Init : HandlerState := ⟨s5Device, -1, none⟩

/-- Two group-6 packets with times 1000 then 999. -/
def s5Pkts : List RecvTuple :=
  [⟨1000, 0, 6, 2, [1, 0, 2, 0]⟩, ⟨999, 0, 6, 2, [3, 0, 4, 0]⟩]

/-- The state after S5: both packets counted, `last_time` still 1000, the
in-order group-6 packet's time and first bytes remembered. -/
def s5Final : HandlerState :=
  ⟨⟨⟨0, 0, [], [], [(6, 2)]⟩,
      [(1, []), (2, []), (3, []), (4, []), (5, []), (6, [7])],
      defaultEventCallbacks, [], 2, 1000⟩,
    1000, some [1, 0, 2, 0]⟩

/-- The observable S5 behavior: dispatch of the first packet, one
out-of-order warning, then dispatch of the second packet — never
reordered. -/
def s5Events : List HandlerEvent :=
  [.dispatch 7 1000 0 6, .warnOutOfOrder 1000 999, .dispatch 7 999 0 6]

/-! ## Theorems -/

theorem length_toLEBytes (w v : Nat) : (toLEBytes w v).length = w := by
  induction w generalizing v with
  | zero => rfl
  | succ w ih => simp [toLEBytes, ih]

theorem fromLEBytes_toLEBytes {w v : Nat} (h : v < 256 ^ w) :
    fromLEBytes (toLEBytes w v) = v := by
  induction w generalizing v with
  | zero =>
    simp [toLEBytes, fromLEBytes]
    omega
  | succ w ih =>
    have hdiv : v / 256 < 256 ^ w := by
      rw [Nat.div_lt_iff_lt_mul (by norm_num)]
      calc v < 256 ^ (w + 1) := h
        _ = 256 ^ w * 256 := by ring
    simp [toLEBytes, fromLEBytes, ih hdiv]
    omega

theorem toLEBytes_lt (w v : Nat) : ∀ b ∈ toLEBytes w v, b < 256 := by
  induction w generalizing v with
  | zero => simp [toLEBytes]
  | succ w ih =>
    intro b hb
    simp [toLEBytes] at hb
    rcases hb with h | h
    · omega
    · exact ih _ _ h

theorem parseFields_encodeFields {ws vs : List Nat} (rest : List Nat)
    (h : fieldsOK ws vs = true) :
    parseFields ws (encodeFields ws vs ++ rest) = some (vs, rest) := by
  induction ws generalizing vs with
  | nil =>
    cases vs with
    | nil => simp [encodeFields, parseFields]
    | cons v vs => simp [fieldsOK] at h
  | cons w ws ih =>
    cases vs with
    | nil => simp [fieldsOK] at h
    | cons v vs =>
      simp only [fieldsOK, Bool.and_eq_true, decide_eq_true_eq] at h
      have hlen : (toLEBytes w v).length = w := length_toLEBytes w v
      simp only [encodeFields, List.append_assoc, parseFields]
      rw [if_pos]
      · rw [List.drop_append_of_le_length (by omega),
          List.drop_eq_nil_of_le (le_of_eq hlen), List.nil_append, ih h.2,
          List.take_append_of_le_length (by omega),
          List.take_of_length_le (le_of_eq hlen), fromLEBytes_toLEBytes h.1]
      · simp [hlen]

theorem length_encodeFields {ws vs : List Nat} (h : fieldsOK ws vs = true) :
    (encodeFields ws vs).length = ws.sum := by
  induction ws generalizing vs with
  | nil =>
    cases vs with
    | nil => simp [encodeFields]
    | cons v vs => simp [fieldsOK] at h
  | cons w ws ih =>
    cases vs with
    | nil => simp [fieldsOK] at h
    | cons v vs =>
      simp only [fieldsOK, Bool.and_eq_true] at h
      simp [encodeFields, length_toLEBytes, ih h.2]

theorem length_encodeArray (esz : Nat) (arr : List Nat) :
    (encodeArray esz arr).length = esz * arr.length := by
  induction arr with
  | nil => simp [encodeArray]
  | cons a rest ih => simp [encodeArray, length_toLEBytes, ih]; ring

theorem parseArray_encodeArray {esz : Nat} (hpos : 0 < esz) {arr : List Nat}
    (h : ∀ a ∈ arr, a < 256 ^ esz) :
    parseArray esz (encodeArray esz arr) = arr := by
  have key : ∀ n (l : List Nat), (∀ a ∈ l, a < 256 ^ esz) → l.length = n →
      readElems esz n (encodeArray esz l) = l := by
    intro n
    induction n with
    | zero =>
      intro l _ hlen
      rw [List.length_eq_zero] at hlen
      simp [hlen, readElems]
    | succ n ih =>
      intro l hl hlen
      cases l with
      | nil => simp at hlen
      | cons a rest =>
        have hlena : (toLEBytes esz a).length = esz := length_toLEBytes esz a
        simp only [encodeArray, readElems]
        rw [List.take_append_of_le_length (le_of_eq hlena.symm),
          List.take_of_length_le (le_of_eq hlena),
          fromLEBytes_toLEBytes (hl a (by simp)),
          List.drop_append_of_le_length (le_of_eq hlena.symm),
          List.drop_eq_nil_of_le (le_of_eq hlena), List.nil_append]
        have := ih rest (fun x hx => hl x (by simp [hx])) (by simpa using hlen)
        rw [this]
  unfold parseArray
  rw [if_neg (by omega), length_encodeArray,
    Nat.mul_div_cancel_left _ hpos, key _ _ h rfl]

theorem decodeHeader_encodeHeader {ver : ProtocolVersion} {h : CBPacketHeader}
    (hok : headerOK ver h = true) (rest : List Nat) :
    decodeHeader ver (encodeHeader ver h ++ rest) = some (h, rest) := by
  have hfields : fieldsOK (headerWidths ver) (headerVals ver h) = true := by
    cases ver <;> simp only [headerOK, Bool.and_eq_true] at hok <;> exact hok.1
  cases ver with
  | v311 =>
    simp only [headerOK, Bool.and_eq_true, decide_eq_true_eq] at hok
    rw [decodeHeader, encodeHeader, parseFields_encodeFields rest hfields]
    simp [headerVals]
    cases h with
    | mk t c ty dl ins res =>
      simp only at hok ⊢
      rw [hok.2.1, hok.2.2]
  | v40 =>
    rw [decodeHeader, encodeHeader, parseFields_encodeFields rest hfields]
    simp [headerVals]
  | v41 =>
    rw [decodeHeader, encodeHeader, parseFields_encodeFields rest hfields]
    simp [headerVals]

theorem decodePacket_encodePacket {L : PktLayout} {p : CBPacket}
    (hok : packetOK L p = true) (hesz : L.varlen = true → 0 < L.elemSize) :
    decodePacket L (encodePacket L p) = some p := by
  simp only [packetOK, Bool.and_eq_true, Bool.or_eq_true, decide_eq_true_eq,
    List.all_eq_true] at hok
  obtain ⟨⟨⟨⟨hhdr, hflds⟩, harr⟩, hvl⟩, _⟩ := hok
  rw [decodePacket, encodePacket, List.append_assoc,
    decodeHeader_encodeHeader hhdr]
  dsimp only
  rw [parseFields_encodeFields _ hflds]
  dsimp only
  rcases hvl with hvl | hvl
  · rw [hvl, if_pos rfl, parseArray_encodeArray (hesz hvl) harr]
  · cases p with
    | mk hdr flds arr =>
      simp only at hvl
      subst hvl
      rw [show encodeArray L.elemSize [] = [] from rfl]
      simp [parseArray, readElems]

theorem registry_varlen_elemSize :
    ∀ L ∈ fullRegistry, L.varlen = true → 0 < L.elemSize := by decide

theorem registry_headerSize_mod4 :
    ∀ L ∈ fullRegistry, headerSize L.ver % 4 = 0 := by decide

theorem length_encodePacket {L : PktLayout} {p : CBPacket}
    (hok : packetOK L p = true) :
    (encodePacket L p).length = headerSize L.ver + bodyNBytes L p := by
  simp only [packetOK, Bool.and_eq_true] at hok
  obtain ⟨⟨⟨⟨hhdr, hflds⟩, _⟩, _⟩, _⟩ := hok
  have hh : fieldsOK (headerWidths L.ver) (headerVals L.ver p.header) = true := by
    cases hv : L.ver <;> rw [hv] at hhdr <;>
      simp only [headerOK, Bool.and_eq_true] at hhdr <;> exact hhdr.1
  simp [encodePacket, encodeHeader, bodyNBytes, headerSize,
    length_encodeFields hh, length_encodeFields hflds, length_encodeArray]

/-- C2 (claim):  `header.dlen * 4 + header_size == len(encode(p))` and the
encoded length is a multiple of 4, for every concrete packet class and every
well-formed instance whose `dlen` is the one stamped by the constructor /
`_update_dlen` (`dlen = body_nbytes // 4`).  `encode` here is the wire
encoding performed by `_send_packet`, which truncates the serialized bytes to
a multiple of 4; this is what makes the equation hold even for the v3.11
`CBPacketChanInfo`, whose fixed struct size (669 bytes) is not a multiple
of 4. -/
theorem claim_C2_encoded_length :
    ∀ L ∈ fullRegistry, ∀ p : CBPacket, packetOK L p = true →
      p.header.dlen = bodyNBytes L p / 4 →
      (encodeWire L p).length = 4 * p.header.dlen + headerSize L.ver ∧
        (encodeWire L p).length % 4 = 0 := by
  intro L hL p hok hdlen
  have hmod : headerSize L.ver % 4 = 0 := registry_headerSize_mod4 L hL
  have hlen : (encodePacket L p).length = headerSize L.ver + bodyNBytes L p :=
    length_encodePacket hok
  have hwire : (encodeWire L p).length =
      (encodePacket L p).length - (encodePacket L p).length % 4 := by
    simp [encodeWire, List.length_take]
  rw [hwire, hlen, hdlen]
  omega

theorem claim_C2_encoded_length_witness :
    packetOK (chanInfoLayout .v311) chanInfoV311Default = true ∧
      chanInfoV311Default.header.dlen =
        bodyNBytes (chanInfoLayout .v311) chanInfoV311Default / 4 ∧
      ((encodeWire (chanInfoLayout .v311) chanInfoV311Default).length =
          4 * chanInfoV311Default.header.dlen +
            headerSize (chanInfoLayout .v311).ver ∧
        (encodeWire (chanInfoLayout .v311) chanInfoV311Default).length % 4
          = 0) :=
  ⟨by decide, by decide,
    claim_C2_encoded_length (chanInfoLayout .v311) (by decide)
      chanInfoV311Default (by decide) (by decide)⟩

/-- C1 (claim): for every concrete packet class and well-formed instance
(array within `max_elements`, all fields in range), constructing a packet of
the same class from the encoded bytes restores all header fields, all fixed
body fields, and the trailing array, across the three header versions. -/
theorem claim_C1_decode_encode_roundtrip :
    ∀ L ∈ fullRegistry, ∀ p : CBPacket, packetOK L p = true →
      decodePacket L (encodePacket L p) = some p := by
  intro L hL p hok
  exact decodePacket_encodePacket hok (registry_varlen_elemSize L hL)

theorem claim_C1_decode_encode_roundtrip_witness :
    packetOK (spikeLayout .v41) spikeExample = true ∧
      decodePacket (spikeLayout .v41) (encodePacket (spikeLayout .v41)
        spikeExample) = some spikeExample :=
  ⟨by decide,
    claim_C1_decode_encode_roundtrip (spikeLayout .v41) (by decide)
      spikeExample (by decide)⟩

/-! ## Helper lemmas on bits and association lists -/

theorem and_single_bit (a i : Nat) : a &&& 2 ^ i = 0 ∨ a &&& 2 ^ i = 2 ^ i := by
  rw [Nat.and_two_pow]
  cases a.testBit i <;> simp

theorem and_or_distrib (a x y : Nat) :
    a &&& (x ||| y) = (a &&& x) ||| (a &&& y) := by
  apply Nat.eq_of_testBit_eq
  intro k
  simp [Nat.testBit_and, Nat.testBit_or, Bool.and_or_distrib_left]

theorem lookup_map_set {β : Type} (k : Nat) (v : β) :
    ∀ l : List (Nat × β), (l.lookup k).isSome = true →
      (l.map (fun p => if p.1 = k then (k, v) else p)).lookup k = some v := by
  intro l
  induction l with
  | nil => intro hs; simp at hs
  | cons p t ih =>
    intro hs
    rcases p with ⟨a, b⟩
    by_cases hp : a = k
    · subst hp
      simp only [List.map_cons]
      simp [List.lookup]
    · have hk : (k == a) = false := by simp [Ne.symm hp]
      simp only [List.lookup, hk] at hs
      simp only [List.map_cons]
      have he : (if ((a, b) : Nat × β).1 = k then (k, v) else (a, b))
          = (a, b) := by simp [hp]
      rw [he]
      simp only [List.lookup, hk]
      exact ih hs

theorem lookup_append_single {β : Type} (k : Nat) (v : β) :
    ∀ l : List (Nat × β), l.lookup k = none →
      ((l ++ [(k, v)]).lookup k) = some v := by
  intro l
  induction l with
  | nil => simp [List.lookup]
  | cons p t ih =>
    intro hs
    rcases p with ⟨a, b⟩
    by_cases hp : a = k
    · subst hp
      simp [List.lookup] at hs
    · have hk : (k == a) = false := by simp [Ne.symm hp]
      simp only [List.lookup, hk] at hs
      simp only [List.cons_append, List.lookup, hk]
      exact ih hs

theorem lookup_alInsert {β : Type} (l : List (Nat × β)) (k : Nat) (v : β) :
    (alInsert l k v).lookup k = some v := by
  unfold alInsert
  by_cases hs : (l.lookup k).isSome
  · rw [if_pos hs]
    exact lookup_map_set k v l hs
  · rw [if_neg hs]
    rw [Option.not_isSome_iff_eq_none] at hs
    exact lookup_append_single k v l hs

theorem alInsert_fst {β : Type} (l : List (Nat × β)) (k : Nat) (v : β) :
    ∀ p ∈ alInsert l k v, p.1 = k ∨ p.1 ∈ l.map Prod.fst := by
  intro p hp
  unfold alInsert at hp
  split at hp
  · rw [List.mem_map] at hp
    obtain ⟨q, hq, hpq⟩ := hp
    by_cases h : q.1 = k
    · simp [h] at hpq
      left
      rw [← hpq]
    · simp [h] at hpq
      right
      rw [← hpq]
      exact List.mem_map_of_mem Prod.fst hq
  · rw [List.mem_append] at hp
    rcases hp with hp | hp
    · right
      exact List.mem_map_of_mem Prod.fst hp
    · simp at hp
      left
      rw [hp]

/-- C3 (counterexample): a ChanInfo with no capability bit set falls through
every branch of `get_chantype_from_chaninfo`; the Python function returns
`None`, not `CBChannelType.Any` as the claim states. -/
theorem claim_C3_chantype_counterexample :
    get_chantype_from_chaninfo chanInfoRecZero = none ∧
      get_chantype_from_chaninfo chanInfoRecZero ≠ some CBChannelType.Any := by
  decide

/-- C3 (amended): the derived channel class follows exactly the claimed
decision list — isolated∧ainp → FrontEnd; ainp → AnalogIn; dinp with a
serial-mask bit → Serial; dinp → DigitalIn; dout → DigitalOut; aout with the
audio bit → Audio — except that in every remaining case the function returns
no class (Python `None`) rather than `Any`; after an accepted full-scope
`CHANREP` the mirror's `channel_types` entry equals this computed value. -/
theorem claim_C3_chantype_amended :
    (∀ pkt : ChanInfoRec,
      get_chantype_from_chaninfo pkt = chantype_decision_list pkt) ∧
    (∀ (cfg : ConfigMirror) (pkt : ChanInfoRec) (cfg' : ConfigMirror),
      handle_chaninfo cfg pkt = some cfg' →
      pkt.headerType = CBPacketType.CHANREP →
      (pkt.headerInstrument : Int) = cfg.instrument →
      pkt.chan ≤ cfg.proc_chans →
      chanTypesLookup cfg'.channel_types pkt.chan
        = get_chantype_from_chaninfo pkt) := by
  constructor
  · intro pkt
    have h4 := and_single_bit pkt.chancaps 2
    have h256 := and_single_bit pkt.chancaps 8
    have h512 := and_single_bit pkt.chancaps 9
    have h1024 := and_single_bit pkt.chancaps 10
    have h2048 := and_single_bit pkt.chancaps 11
    norm_num at h4 h256 h512 h1024 h2048
    have hor : pkt.chancaps &&& 260
        = (pkt.chancaps &&& 4) ||| (pkt.chancaps &&& 256) := by
      have := and_or_distrib pkt.chancaps 4 256
      norm_num at this
      exact this
    unfold get_chantype_from_chaninfo chantype_decision_list
    unfold CBChanCaps.isolated CBChanCaps.ainp CBChanCaps.dinp
      CBChanCaps.dout CBChanCaps.aout
    norm_num
    rcases h4 with h4 | h4 <;> rcases h256 with h256 | h256 <;>
      rcases h512 with h512 | h512 <;> rcases h1024 with h1024 | h1024 <;>
      rcases h2048 with h2048 | h2048 <;>
      simp [hor, h4, h256, h512, h1024, h2048]
  · intro cfg pkt cfg' h htype hinstr hchan
    unfold handle_chaninfo at h
    rw [if_neg (by push_neg; exact ⟨hinstr, by omega⟩), if_pos htype] at h
    injection h with h3
    subst h3
    simp only [chanTypesLookup, lookup_alInsert]

theorem claim_C3_chantype_amended_witness :
    get_chantype_from_chaninfo (chanRepFor 2)
        = chantype_decision_list (chanRepFor 2) ∧
      chanTypesLookup cfgC3After.channel_types (chanRepFor 2).chan
        = get_chantype_from_chaninfo (chanRepFor 2) :=
  ⟨claim_C3_chantype_amended.1 (chanRepFor 2),
    claim_C3_chantype_amended.2 cfgInstr0 (chanRepFor 2) cfgC3After
      (by decide) (by decide) (by decide) (by decide)⟩

/-- C5 (counterexample): `_handle_chaninfo` only checks
`pkt.chan > proc_chans`, so a `CHANREP` for channel 0 from the matching
instrument is NOT dropped: it is stored under key 0, which lies outside
`[1, proc_chans]`, and the mirror changes. -/
theorem claim_C5_counterexample :
    handle_chaninfo cfgInstr0 chanRepChan0 =
      some ⟨0, 3, [(0, chanRepChan0)], [(0, none)], []⟩ ∧
      handle_chaninfo cfgInstr0 chanRepChan0 ≠ some cfgInstr0 ∧
      (0 : Nat) ∉ ([] : List (Nat × ChanInfoRec)).map Prod.fst := by
  decide

/-- C5 (amended): a ChanInfo reply is dropped (mirror untouched) when its
header instrument differs from the mirror's or its `chan` exceeds
`proc_chans`; `chan = 0` is accepted, so the stored keys are only guaranteed
to lie in `[0, proc_chans]` (with respect to the current `proc_chans`), not
`[1, proc_chans]`. -/
theorem claim_C5_scoped_drop_amended :
    ∀ (cfg : ConfigMirror) (pkt : ChanInfoRec),
      ((pkt.headerInstrument : Int) ≠ cfg.instrument ∨
          cfg.proc_chans < pkt.chan →
        handle_chaninfo cfg pkt = some cfg) ∧
      (∀ cfg', handle_chaninfo cfg pkt = some cfg' →
        cfg'.proc_chans = cfg.proc_chans ∧
        ((∀ p ∈ cfg.channel_infos, p.1 ≤ cfg.proc_chans) →
          ∀ p ∈ cfg'.channel_infos, p.1 ≤ cfg'.proc_chans)) := by
  intro cfg pkt
  constructor
  · intro hdrop
    unfold handle_chaninfo
    rw [if_pos hdrop]
  · intro cfg' h
    unfold handle_chaninfo at h
    by_cases hdrop : (pkt.headerInstrument : Int) ≠ cfg.instrument ∨
        cfg.proc_chans < pkt.chan
    · rw [if_pos hdrop] at h
      injection h with h3
      subst h3
      exact ⟨rfl, fun hk => hk⟩
    · rw [if_neg hdrop] at h
      push_neg at hdrop
      by_cases hrep : pkt.headerType = CBPacketType.CHANREP
      · rw [if_pos hrep] at h
        injection h with h3
        subst h3
        refine ⟨rfl, fun hk p hp => ?_⟩
        dsimp only at hp ⊢
        rcases alInsert_fst _ _ _ p hp with h1 | h1
        · omega
        · rw [List.mem_map] at h1
          obtain ⟨q, hq, hq2⟩ := h1
          have := hk q hq
          omega
      · rw [if_neg hrep] at h
        by_cases htouch : scopedTouches pkt.headerType = true
        · rw [if_pos htouch] at h
          cases hlk : cfg.channel_infos.lookup pkt.chan with
          | none => rw [hlk] at h; cases h
          | some old =>
            rw [hlk] at h
            injection h with h3
            subst h3
            refine ⟨rfl, fun hk p hp => ?_⟩
            dsimp only at hp ⊢
            rcases alInsert_fst _ _ _ p hp with h1 | h1
            · omega
            · rw [List.mem_map] at h1
              obtain ⟨q, hq, hq2⟩ := h1
              have := hk q hq
              omega
        · rw [if_neg htouch] at h
          injection h with h3
          subst h3
          exact ⟨rfl, fun hk => hk⟩

theorem claim_C5_scoped_drop_amended_witness :
    handle_chaninfo cfgInstr0
        { chanRepChan0 with chan := 5 } = some cfgInstr0 ∧
      cfgInstr0.proc_chans = cfgInstr0.proc_chans :=
  ⟨(claim_C5_scoped_drop_amended cfgInstr0
      { chanRepChan0 with chan := 5 }).1 (by decide),
    ((claim_C5_scoped_drop_amended cfgInstr0
        { chanRepChan0 with chan := 5 }).2 cfgInstr0
      ((claim_C5_scoped_drop_amended cfgInstr0
          { chanRepChan0 with chan := 5 }).1 (by decide))).1 ▸ rfl⟩

/-- C4 (counterexample): for an incoming packet with `chid = 0` and
`type = 0` and no channel-class hint, `make_packet` falls past the
`pkt_type > 0` sample-group test and selects the registered fallback
`CBPacketGeneric`, not the SampleGroup layout; and the default
`group_callbacks` dict has keys 1..6 only, so there is no
`group_callbacks[0]` entry at all. -/
theorem claim_C4_counterexample :
    make_packet_cls 0 0 none = some PktCls.Generic ∧
      some PktCls.Generic ≠ some PktCls.Group ∧
      defaultGroupCallbacks.lookup 0 = none := by
  decide

/-- C4 (amended): for a packet with `chid & 0x8000 == 0`, `chid == 0` and
`type == 0`, the factory selects the registered fallback class
(`CBPacketGeneric`) — both with no hint and with the handler's default `Any`
hint — and the handler finds no `group_callbacks` entry for group id 0
(the dict holds keys 1..6 only), so the recipient list is Python `None` and
nothing is dispatched. -/
theorem claim_C4_group_zero_amended :
    make_packet_cls 0 0 none = some PktCls.Generic ∧
      make_packet_cls 0 0 (some CBChannelType.Any) = some PktCls.Generic ∧
      (∀ dev : DeviceState, dev.group_callbacks = defaultGroupCallbacks →
        resolveCallbacks dev 0 0 (some CBChannelType.Any)
          = some (none, false)) := by
  refine ⟨by decide, by decide, ?_⟩
  intro dev h
  simp [resolveCallbacks, h, defaultGroupCallbacks, List.lookup]

theorem claim_C4_group_zero_amended_witness :
    make_packet_cls 0 0 none = some PktCls.Generic ∧
      resolveCallbacks devDefault 0 0 (some CBChannelType.Any)
        = some (none, false) :=
  ⟨claim_C4_group_zero_amended.1,
    claim_C4_group_zero_amended.2.2 devDefault rfl⟩

/-- C8 (claim): `get_config(force_refresh=True)` returns failure (`None`)
exactly when, after the `REQCONFIGALL` exchange, `proc_chans` is 0 or the
number of `channel_infos` entries differs from `proc_chans`; in particular
the S6 stream (PROCINFO chancount=3, three CHANREPs, no terminal SYSINFO)
yields the mirror with `proc_chans = 3` and three channel infos, not a
failure. -/
theorem claim_C8_get_config :
    (∀ (cfg : ConfigMirror) (replies : List ConfigReply) (cfg2 : ConfigMirror),
      process_replies { cfg with proc_chans := 0, channel_infos := [] }
          replies = some cfg2 →
      (get_config_force_refresh cfg replies = some none ↔
        (cfg2.proc_chans = 0 ∨
          cfg2.channel_infos.length ≠ cfg2.proc_chans))) ∧
    (get_config_force_refresh cfgS6 repliesS6 = some (some cfgS6After) ∧
      cfgS6After.proc_chans = 3 ∧ cfgS6After.channel_infos.length = 3) := by
  constructor
  · intro cfg replies cfg2 h
    unfold get_config_force_refresh
    dsimp only
    rw [h]
    dsimp only
    split_ifs with hc
    · simp [hc]
    · simp [hc]
  · exact ⟨by decide, by decide, by decide⟩

theorem claim_C8_get_config_witness :
    get_config_force_refresh cfgS6 repliesS6 = some none ↔
      (cfgS6After.proc_chans = 0 ∨
        cfgS6After.channel_infos.length ≠ cfgS6After.proc_chans) :=
  claim_C8_get_config.1 cfgS6 repliesS6 cfgS6After (by decide)

/-- C9 (counterexample): the claim expects `dlen = 7` and a body carrying a
`transport` u16 (a 28-byte body).  At wire version 4.1 the selected SysInfo
layout is the pre-4.2 one: `dlen = 6` and the whole encoded packet is
16 + 24 = 40 bytes, not 44. -/
theorem claim_C9_counterexample :
    sysInfo41Example.header.dlen = 6 ∧ sysInfo41Example.header.dlen ≠ 7 ∧
      (encodePacket (sysInfoLayout .v41) sysInfo41Example).length = 40 ∧
      (encodePacket (sysInfoLayout .v41) sysInfo41Example).length ≠ 44 := by
  decide

/-- C9 (amended): with wire version 4.1 the default-constructed SysInfo with
`sysfreq=30000, spikelen=60, spikepre=22, runlevel=50` encodes to a header
`time=0, chid=0x8000, type=0x90, dlen=6, instrument=0, reserved=0` followed
by the six little-endian u32s `30000, 60, 22, 0, 50, 0` (no transport field
— that appears only at protocol ≥ 4.2); decoding the bytes restores every
field. -/
theorem claim_C9_sysinfo_amended :
    encodePacket (sysInfoLayout .v41) sysInfo41Example =
      [0, 0, 0, 0, 0, 0, 0, 0,
        0x00, 0x80,
        0x90, 0x00,
        6, 0,
        0,
        0,
        0x30, 0x75, 0, 0,
        60, 0, 0, 0,
        22, 0, 0, 0,
        0, 0, 0, 0,
        50, 0, 0, 0,
        0, 0, 0, 0] ∧
      decodePacket (sysInfoLayout .v41)
          (encodePacket (sysInfoLayout .v41) sysInfo41Example)
        = some sysInfo41Example := by
  decide

/-- C10 (claim): `configure_channel_disable` (the facade's
`set_channel_disable`) sends a `CHANSET` packet whose 32-bit `ainpopts`
keeps only the channel's prior raw-stream bit (0x40) and forces all other
31 bits to 1 — the consequence of `ainpopts |= ~refelec_rawstream` under the
`c_uint32` store — with `smpgroup = 0` and `smpfilter = 0`. -/
theorem claim_C10_channel_disable :
    ∀ rec : ChanInfoRec, rec.ainpopts < 2 ^ 32 →
      (configure_channel_disable rec).ainpopts
          = 0xFFFFFFBF ||| (rec.ainpopts &&& 0x40) ∧
        (configure_channel_disable rec).smpgroup = 0 ∧
        (configure_channel_disable rec).smpfilter = 0 ∧
        (configure_channel_disable rec).headerType
          = CBPacketType.CHANSET := by
  intro rec ha
  refine ⟨?_, rfl, rfl, rfl⟩
  show orNot32 (clearBits32 (clearBits32 (clearBits32 rec.ainpopts
      CBAnaInpOpts.refelec_offsetcorrect) CBAnaInpOpts.lnc_mask)
      CBAnaInpOpts.refelec_mask) CBAnaInpOpts.refelec_rawstream
    = 0xFFFFFFBF ||| (rec.ainpopts &&& 0x40)
  unfold CBAnaInpOpts.refelec_offsetcorrect CBAnaInpOpts.lnc_mask
    CBAnaInpOpts.refelec_mask CBAnaInpOpts.refelec_rawstream
  apply Nat.eq_of_testBit_eq
  intro i
  by_cases h32 : i < 32
  · simp only [orNot32, clearBits32, Nat.testBit_or, Nat.testBit_and,
      Nat.testBit_xor]
    have e1 : (0xFFFFFFFF : Nat) = 2 ^ 32 - 1 := by norm_num
    have e2 : (0x7 : Nat) = 2 ^ 3 - 1 := by norm_num
    have e3 : (0x40 : Nat) = 2 ^ 6 := by norm_num
    have e4 : (0x100 : Nat) = 2 ^ 8 := by norm_num
    have e5 : (0xFFFFFFBF : Nat) = (2 ^ 32 - 1) ^^^ 2 ^ 6 := by decide
    have e6 : (0x30 : Nat) = (2 ^ 6 - 1) ^^^ (2 ^ 4 - 1) := by decide
    rw [e1, e2, e3, e4, e5, e6]
    simp only [Nat.testBit_xor, Nat.testBit_two_pow_sub_one,
      Nat.testBit_two_pow]
    by_cases h6 : i = 6
    · subst h6
      simp
    · have d6 : (decide (6 = i)) = false := by simp [Ne.symm h6]
      simp [h32, d6]
  · push_neg at h32
    have hai : rec.ainpopts.testBit i = false :=
      Nat.testBit_lt_two_pow
        (lt_of_lt_of_le ha (Nat.pow_le_pow_right (by norm_num) h32))
    simp only [orNot32, clearBits32, Nat.testBit_or, Nat.testBit_and,
      Nat.testBit_xor]
    have e1 : (0xFFFFFFFF : Nat) = 2 ^ 32 - 1 := by norm_num
    have e3 : (0x40 : Nat) = 2 ^ 6 := by norm_num
    have e5 : (0xFFFFFFBF : Nat) = (2 ^ 32 - 1) ^^^ 2 ^ 6 := by decide
    rw [e1, e3, e5]
    simp only [Nat.testBit_xor, Nat.testBit_two_pow_sub_one,
      Nat.testBit_two_pow]
    have h32f : (decide (i < 32)) = false := by
      simpa using Nat.not_lt.mpr h32
    have d6 : (decide (6 = i)) = false := by
      have : i ≠ 6 := by omega
      simp [Ne.symm this]
    simp [hai, h32f, d6]

theorem claim_C10_channel_disable_witness :
    chanRecRaw.ainpopts < 2 ^ 32 ∧
      ((configure_channel_disable chanRecRaw).ainpopts
          = 0xFFFFFFBF ||| (chanRecRaw.ainpopts &&& 0x40) ∧
        (configure_channel_disable chanRecRaw).smpgroup = 0 ∧
        (configure_channel_disable chanRecRaw).smpfilter = 0 ∧
        (configure_channel_disable chanRecRaw).headerType
          = CBPacketType.CHANSET) :=
  ⟨by decide, claim_C10_channel_disable chanRecRaw (by decide)⟩

/-- C6 (claim): across every handler step the device's `last_time` is
non-decreasing (it is advanced only when a packet's time is strictly
greater), and in scenario S5 (two group-6 packets with times 1000 then 999)
the handler emits exactly one out-of-order warning, keeps
`last_time = 1000`, and still dispatches both packets to the registered
group-6 callback in arrival order. -/
theorem claim_C6_monotonic_clock_and_s5 :
    (∀ (st : HandlerState) (pkt : RecvTuple)
        (out : HandlerState × List HandlerEvent),
      handlerStep st pkt = some out →
        st.dev.last_time ≤ out.1.dev.last_time) ∧
    (handlerRun s5Init s5Pkts = some (s5Final, s5Events) ∧
      countWarnings s5Events = 1 ∧ s5Final.dev.last_time = 1000 ∧
      s5Events = [.dispatch 7 1000 0 6, .warnOutOfOrder 1000 999,
        .dispatch 7 999 0 6]) := by
  constructor
  · intro st pkt out h
    have hclock : ∀ q, handlerClock st pkt = some q →
        st.dev.last_time ≤ q.1.last_time := by
      intro q hc
      unfold handlerClock at hc
      dsimp only at hc
      repeat' split at hc
      all_goals first
        | (injection hc with hc2
           subst hc2
           dsimp only at *
           omega)
        | simp at hc
    unfold handlerStep at h
    cases hc : handlerClock st pkt with
    | none => rw [hc] at h; simp at h
    | some q =>
      obtain ⟨dev1, lgt, lgd, evs⟩ := q
      rw [hc] at h
      have hle := hclock _ hc
      dsimp only at hle h
      repeat' split at h
      all_goals first
        | (injection h with h2
           subst h2
           exact hle)
        | simp at h
  · exact ⟨by decide, by decide, by decide, by decide⟩

theorem claim_C6_monotonic_clock_and_s5_witness :
    handlerStep s5Init ⟨1000, 0, 6, 2, [1, 0, 2, 0]⟩ =
        some (⟨{ s5Device with pkts_received := 1, last_time := 1000 },
          1000, some [1, 0, 2, 0]⟩, [.dispatch 7 1000 0 6]) ∧
      s5Init.dev.last_time ≤ 1000 :=
  ⟨by decide,
    claim_C6_monotonic_clock_and_s5.1 s5Init ⟨1000, 0, 6, 2, [1, 0, 2, 0]⟩
      (⟨{ s5Device with pkts_received := 1, last_time := 1000 },
        1000, some [1, 0, 2, 0]⟩, [.dispatch 7 1000 0 6]) (by decide)⟩

/-! ## Parsing lemmas for the factory's zero-padded construction -/

theorem fromLEBytes_zero : ∀ l : List Nat, (∀ b ∈ l, b = 0) →
    fromLEBytes l = 0 := by
  intro l
  induction l with
  | nil => intro _; rfl
  | cons b t ih =>
    intro h
    have hb : b = 0 := h b (by simp)
    have ht : fromLEBytes t = 0 := ih (fun x hx => h x (by simp [hx]))
    simp [fromLEBytes, hb, ht]

theorem zero_suffix_mono {l : List Nat} {k m : Nat}
    (h : ∀ b ∈ l.drop k, b = 0) (hkm : k ≤ m) :
    ∀ b ∈ l.drop m, b = 0 := by
  intro b hb
  have : l.drop m = (l.drop k).drop (m - k) := by
    rw [List.drop_drop]
    congr 1
    omega
  rw [this] at hb
  exact h b (List.mem_of_mem_drop hb)

theorem parseFields_total : ∀ (ws bs : List Nat), ws.sum ≤ bs.length →
    ∃ vs, parseFields ws bs = some (vs, bs.drop ws.sum) ∧
      vs.length = ws.length := by
  intro ws
  induction ws with
  | nil =>
    intro bs _
    exact ⟨[], by simp [parseFields], rfl⟩
  | cons w ws ih =>
    intro bs h
    simp only [List.sum_cons, List.length_cons] at h ⊢
    have hw : w ≤ bs.length := by omega
    obtain ⟨vs, hvs, hlen⟩ := ih (bs.drop w) (by simp; omega)
    refine ⟨fromLEBytes (bs.take w) :: vs, ?_, by simp [hlen]⟩
    simp only [parseFields, if_pos hw, hvs, List.drop_drop]

theorem parseFields_zero_suffix :
    ∀ (ws bs vs rest : List Nat) (k : Nat),
      parseFields ws bs = some (vs, rest) →
      (∀ b ∈ bs.drop k, b = 0) →
      ∀ i, i < ws.length → k ≤ (ws.take i).sum → vs.getD i 0 = 0 := by
  intro ws
  induction ws with
  | nil => intro bs vs rest k _ _ i hi; simp at hi
  | cons w ws ih =>
    intro bs vs rest k hp hz i hi hk
    simp only [parseFields] at hp
    by_cases hw : w ≤ bs.length
    · rw [if_pos hw] at hp
      cases hpt : parseFields ws (bs.drop w) with
      | none => rw [hpt] at hp; cases hp
      | some q =>
        obtain ⟨vs2, rest2⟩ := q
        rw [hpt] at hp
        injection hp with hp2
        have hv : vs = fromLEBytes (bs.take w) :: vs2 := by
          have := congrArg Prod.fst hp2
          simpa using this.symm
        subst hv
        cases i with
        | zero =>
          simp only [List.take_zero, List.sum_nil, Nat.le_zero] at hk
          subst hk
          simp only [List.getD, List.get?, Option.getD]
          have : ∀ b ∈ bs.take w, b = 0 := by
            intro b hb
            exact hz b (by simpa using List.mem_of_mem_take hb)
          simpa using fromLEBytes_zero _ this
        | succ i =>
          simp only [List.length_cons, Nat.succ_lt_succ_iff] at hi
          have hz2 : ∀ b ∈ (bs.drop w).drop (k - w), b = 0 := by
            rw [List.drop_drop]
            exact fun b hb => zero_suffix_mono hz (by omega) b hb
          have hk2 : k - w ≤ (ws.take i).sum := by
            simp only [List.take_succ_cons, List.sum_cons] at hk
            omega
          simpa using ih (bs.drop w) vs2 rest2 (k - w) hpt hz2 i hi hk2
    · rw [if_neg hw] at hp
      cases hp

theorem readElems_length (esz : Nat) :
    ∀ (n : Nat) (bs : List Nat), (readElems esz n bs).length = n := by
  intro n
  induction n with
  | zero => intro bs; rfl
  | succ n ih => intro bs; simp [readElems, ih]

theorem parseArray_length {esz : Nat} (hesz : 0 < esz) (bs : List Nat) :
    (parseArray esz bs).length = bs.length / esz := by
  unfold parseArray
  rw [if_neg (by omega), readElems_length]

theorem decodeHeader_total (ver : ProtocolVersion) (bs : List Nat)
    (h : headerSize ver ≤ bs.length) :
    ∃ hdr, decodeHeader ver bs = some (hdr, bs.drop (headerSize ver)) := by
  obtain ⟨vs, hvs, _⟩ := parseFields_total (headerWidths ver) bs h
  rw [decodeHeader, hvs]
  exact ⟨_, rfl⟩

theorem decodePacket_structure (L : PktLayout) (bs : List Nat)
    (h : fixedSize L ≤ bs.length) :
    ∃ hdr vs,
      parseFields L.bodyW (bs.drop (headerSize L.ver))
          = some (vs, bs.drop (fixedSize L)) ∧
        vs.length = L.bodyW.length ∧
        decodePacket L bs = some ⟨hdr, vs,
          if L.varlen then parseArray L.elemSize (bs.drop (fixedSize L))
          else []⟩ := by
  have hhs : headerSize L.ver ≤ bs.length := by
    unfold fixedSize at h
    omega
  obtain ⟨hdr, hhdr⟩ := decodeHeader_total L.ver bs hhs
  obtain ⟨vs, hvs, hlen⟩ := parseFields_total L.bodyW
    (bs.drop (headerSize L.ver)) (by simp; unfold fixedSize at h; omega)
  have hdrop : (bs.drop (headerSize L.ver)).drop L.bodyW.sum
      = bs.drop (fixedSize L) := by
    rw [List.drop_drop]
    unfold fixedSize
    rw [Nat.add_comm]
  rw [hdrop] at hvs
  refine ⟨hdr, vs, hvs, hlen, ?_⟩
  rw [decodePacket, hhdr]
  dsimp only
  rw [hvs]

/-- C7 (counterexample): the factory's construction puts NO `max_elements`
cap on the trailing array read: a 562-byte buffer for the v4.1
`CBPacketGroup` (16-byte header, 546 trailing bytes) decodes to an array of
273 int16 samples, exceeding the class's `max_elements = 272`. -/
theorem claim_C7_counterexample :
    (make_from_buffer (groupLayout .v41) (List.replicate 562 0)).map
        (fun p => p.arr.length) = some 273 ∧
      (groupLayout .v41).maxElements = some 272 ∧ ¬(273 ≤ 272) := by
  refine ⟨?_, by decide, by decide⟩
  decide

/-- C7 (amended): when the factory constructs a packet from a buffer shorter
than the class's fixed struct size it zero-pads the buffer up to that size;
decoding then always succeeds, every fixed field lying entirely beyond the
buffer reads as zero, and a short buffer yields an empty trailing array.
For a variable-length class and a buffer at least the fixed size, the bytes
past the fixed prefix are read into the trailing array until the buffer is
exhausted — the array holds `(len - fixed_size) // elem_size` elements, with
NO cap at the class's `max_elements`. -/
theorem claim_C7_construction_amended :
    ∀ L ∈ fullRegistry, ∀ bs : List Nat,
      ∃ p, make_from_buffer L bs = some p ∧
        (∀ i, i < L.bodyW.length → bs.length ≤ fieldOffset L i →
          p.fields.getD i 0 = 0) ∧
        (L.varlen = true → fixedSize L ≤ bs.length →
          p.arr.length = (bs.length - fixedSize L) / L.elemSize) ∧
        (bs.length < fixedSize L → p.arr = []) := by
  intro L hL bs
  have hesz := registry_varlen_elemSize L hL
  by_cases hshort : bs.length < fixedSize L
  · -- zero-pad path
    set parsed := bs ++ List.replicate (fixedSize L - bs.length) 0 with hparsed
    have hplen : parsed.length = fixedSize L := by
      simp [hparsed]
      omega
    obtain ⟨hdr, vs, hvs, hlen, hdec⟩ :=
      decodePacket_structure L parsed (le_of_eq hplen.symm)
    have hrest : parsed.drop (fixedSize L) = [] := by
      apply List.drop_eq_nil_of_le
      omega
    have harr : (if L.varlen then
        parseArray L.elemSize (parsed.drop (fixedSize L)) else []) = [] := by
      rw [hrest]
      cases L.varlen <;> simp [parseArray, readElems]
    refine ⟨⟨hdr, vs, []⟩, ?_, ?_, ?_, fun _ => rfl⟩
    · rw [make_from_buffer, if_neg (by omega), ← hparsed, hdec, harr]
    · intro i hi hoff
      have hzero : ∀ b ∈ parsed.drop bs.length, b = 0 := by
        intro b hb
        rw [hparsed, List.drop_append_of_le_length (le_refl _),
          List.drop_eq_nil_of_le (le_refl _), List.nil_append] at hb
        exact List.eq_of_mem_replicate hb
      have hz1 : ∀ b ∈ (parsed.drop (headerSize L.ver)).drop
          (bs.length - headerSize L.ver), b = 0 := by
        rw [List.drop_drop]
        exact fun b hb => zero_suffix_mono hzero (by omega) b hb
      exact parseFields_zero_suffix L.bodyW _ vs _
        (bs.length - headerSize L.ver) hvs hz1 i hi
        (by unfold fieldOffset at hoff; omega)
    · intro _ hge
      omega

  · -- buffer at least the fixed struct size
    push_neg at hshort
    obtain ⟨hdr, vs, hvs, hlen, hdec⟩ := decodePacket_structure L bs hshort
    refine ⟨⟨hdr, vs,
      if L.varlen then parseArray L.elemSize (bs.drop (fixedSize L))
      else []⟩, ?_, ?_, ?_, ?_⟩
    · rw [make_from_buffer, if_pos hshort, hdec]
    · intro i hi hoff
      have hzero : ∀ b ∈ bs.drop bs.length, b = 0 := by
        rw [List.drop_eq_nil_of_le (le_refl _)]
        intro b hb
        cases hb
      have hz1 : ∀ b ∈ (bs.drop (headerSize L.ver)).drop
          (bs.length - headerSize L.ver), b = 0 := by
        rw [List.drop_drop]
        exact fun b hb => zero_suffix_mono hzero (by omega) b hb
      exact parseFields_zero_suffix L.bodyW _ vs _
        (bs.length - headerSize L.ver) hvs hz1 i hi
        (by unfold fieldOffset at hoff; omega)
    · intro hvl _
      dsimp only
      rw [if_pos hvl, parseArray_length (hesz hvl)]
      simp
    · intro hlt
      omega

theorem claim_C7_construction_amended_witness :
    ∃ p, make_from_buffer (groupInfoLayout .v41) (List.replicate 20 0)
        = some p ∧
      (∀ i, i < (groupInfoLayout .v41).bodyW.length →
        (List.replicate 20 (0 : Nat)).length ≤
          fieldOffset (groupInfoLayout .v41) i →
        p.fields.getD i 0 = 0) ∧
      ((groupInfoLayout .v41).varlen = true →
        fixedSize (groupInfoLayout .v41) ≤
          (List.replicate 20 (0 : Nat)).length →
        p.arr.length = ((List.replicate 20 (0 : Nat)).length -
          fixedSize (groupInfoLayout .v41)) / (groupInfoLayout .v41).elemSize) ∧
      ((List.replicate 20 (0 : Nat)).length <
          fixedSize (groupInfoLayout .v41) → p.arr = []) :=
  claim_C7_construction_amended (groupInfoLayout .v41) (by decide)
    (List.replicate 20 0)

end Pycbsdk
